import Mathlib

/-!
Shallow embedding of `src/Airspace/AirspaceParser.cpp` (XCSoar airspace file
parser: OpenAir and TNP dialects).  C strings are modelled as `List Char`
(the characters before the terminating NUL); machine `fixed`/`double`
arithmetic is modelled as exact `ℚ` arithmetic; the external collaborators
that are not part of the repository snapshot (libc number scanning, the unit
conversion service, the spherical geometry routines and the `GeoPoint`
normalization) are modelled from the specification, each marked
`Modelled from the spec:` in its doc comment.
-/

namespace Xcs

/-- Terminating NUL character of a C string. -/
def nulChar : Char := '\x00'

/-- Character of the C string `s` at index `i`: the characters of `s` for
`i < s.length` and the terminating NUL for every larger index.  Used for the
scans that never move past the terminator. -/
def charAtD (s : List Char) (i : Nat) : Char := s.getD i nulChar

/-- Character access that distinguishes the single terminating NUL (at index
`s.length`) from genuinely out-of-range positions beyond it, for the loops
that can step past the terminator. -/
def cAt (s : List Char) (i : Nat) : Option Char :=
  if i < s.length then some (charAtD s i) else if i = s.length then some nulChar else none

/-- Modelled from the spec: C `_istdigit` — ASCII decimal digit test. -/
def isDigitC (c : Char) : Bool := 48 ≤ c.toNat && c.toNat ≤ 57

/-- Modelled from the spec: C `tolower` restricted to ASCII, as used by the
case-insensitive keyword matches. -/
def lowerC (c : Char) : Char :=
  if 65 ≤ c.toNat && c.toNat ≤ 90 then Char.ofNat (c.toNat + 32) else c

/-- Fuel-structured space skip; each step consumes an in-bounds space, so
`s.length` fuel always suffices. -/
def skipSpF (s : List Char) : Nat → Nat → Nat
  | 0, i => i
  | f + 1, i =>
    if i < s.length ∧ charAtD s i = ' ' then skipSpF s f (i + 1) else i

/-- Index of the first non-space character at or after `i` (the C idiom
`while (*p == ' ') ++p` and the leading-whitespace skip of `strtod`). -/
def skipSp (s : List Char) (i : Nat) : Nat := skipSpF s s.length i

/-- Fuel-structured digit-run scan; each step consumes an in-bounds digit,
so `s.length` fuel always suffices. -/
def digRunF (s : List Char) : Nat → Nat → Nat → Nat × Nat
  | 0, acc, i => (acc, i)
  | f + 1, acc, i =>
    if i < s.length ∧ isDigitC (charAtD s i) then
      digRunF s f (acc * 10 + ((charAtD s i).toNat - 48)) (i + 1)
    else (acc, i)

/-- Scan of a run of decimal digits starting at `i`, accumulating its value;
returns the value and the index one past the run. -/
def digRun (s : List Char) (acc : Nat) (i : Nat) : Nat × Nat := digRunF s s.length acc i

/-- Modelled from the spec: the C library `_tcstod`/`strtod` restricted to the
decimal forms the airspace grammars use (optional leading spaces, optional
sign, digit run, optional '.' fraction; no exponent/hex/inf forms).  Returns
the value and the end position; when no digits are converted it returns 0
with the original position, as C leaves `endptr` at `nptr`. -/
def strtod (s : List Char) (i : Nat) : ℚ × Nat :=
  let j := skipSp s i
  let j1 := if charAtD s j = '-' ∨ charAtD s j = '+' then j + 1 else j
  let sgn : ℚ := if charAtD s j = '-' then -1 else 1
  let r := digRun s 0 j1
  if charAtD s r.2 = '.' then
    let rf := digRun s 0 (r.2 + 1)
    if r.2 = j1 ∧ rf.2 = r.2 + 1 then (0, i)
    else (sgn * ((r.1 : ℚ) + (rf.1 : ℚ) / (10 : ℚ) ^ (rf.2 - (r.2 + 1))), rf.2)
  else
    if r.2 = j1 then (0, i) else (sgn * (r.1 : ℚ), r.2)

/-- Modelled from the spec: the C library `_tcstol`/`strtol` with base 10
(optional leading spaces, optional sign, digit run). -/
def strtol (s : List Char) (i : Nat) : ℤ × Nat :=
  let j := skipSp s i
  let j1 := if charAtD s j = '-' ∨ charAtD s j = '+' then j + 1 else j
  let sgn : ℤ := if charAtD s j = '-' then -1 else 1
  let r := digRun s 0 j1
  if r.2 = j1 then (0, i) else (sgn * (r.1 : ℤ), r.2)

/-- Modelled from the spec: `string_after_prefix` — the remainder of `s` after
the literal pattern `pat`, or `none` when `s` does not start with `pat`. -/
def afterPfx : List Char → List Char → Option (List Char)
  | [], rest => some rest
  | _ :: _, [] => none
  | p :: ps, c :: cs => if c = p then afterPfx ps cs else none

/-- Modelled from the spec: `string_after_prefix_ci` — case-insensitive
variant of `afterPfx`. -/
def afterPfxCI : List Char → List Char → Option (List Char)
  | [], rest => some rest
  | _ :: _, [] => none
  | p :: ps, c :: cs => if lowerC c = lowerC p then afterPfxCI ps cs else none

/-- Modelled from the spec: `_tcsicmp` equality — case-insensitive comparison
of two whole strings. -/
def icmpEq (a b : List Char) : Bool := a.map lowerC == b.map lowerC

/-- Index of the first space in `s` (the C idiom `_tcsstr(s, " ")`). -/
def findSpIdx : List Char → Option Nat
  | [] => none
  | c :: cs => if c = ' ' then some 0 else (findSpIdx cs).map (· + 1)

/-- Index of the first occurrence of `c` in `s` (the C `_tcschr`). -/
def chrIdx (s : List Char) (c : Char) : Option Nat :=
  match s with
  | [] => none
  | d :: ds => if d = c then some 0 else (chrIdx ds c).map (· + 1)

/-! ## Data model -/

/-- Airspace classification, `Engine/Airspace/AirspaceClass.hpp` as used by
the parser's class tables. -/
inductive AirspaceClass
  | RESTRICT | DANGER | PROHIBITED | CTR | CLASSA | CLASSB | CLASSC | CLASSD
  | NOGLIDER | WAVE | CLASSE | CLASSF | TMZ | CLASSG | OTHER
deriving DecidableEq, Repr

/-- Altitude reference datum of `AirspaceAltitude` (UNDEFINED / MSL / AGL / FL). -/
inductive AltBase
  | UNDEFINED | MSL | AGL | FL
deriving DecidableEq, Repr

/-- Modelled from the spec: the `AirspaceAltitude` value written by
`ReadAltitude` — a plain altitude, a flight level, an above-terrain value
(negative sentinel = surface) and the reference datum. -/
structure AirspaceAltitude where
  altitude : ℚ
  flight_level : ℚ
  altitude_above_terrain : ℚ
  type : AltBase
deriving DecidableEq, Repr

/-- Modelled from the spec: a geographic point; both angles in degrees. -/
structure GeoPoint where
  Latitude : ℚ
  Longitude : ℚ
deriving DecidableEq, Repr

/-- Modelled from the spec: `GeoPoint::normalize`, "ensure longitude is
within -180:180" — wraps the longitude into `[-180, 180)`. -/
def wrapLon (x : ℚ) : ℚ := x - 360 * ⌊(x + 180) / 360⌋

/-- Normalization applied by both coordinate parsers before returning. -/
def GeoPoint.normalize (p : GeoPoint) : GeoPoint :=
  { p with Longitude := wrapLon p.Longitude }

/-- Modelled from the spec: days-of-operation set (default all days). -/
inductive AirspaceActivity
  | all | weekend | weekdays
deriving DecidableEq, Repr

/-- Modelled from the spec: `Units::ToSysUnit(x, unFeet)` — feet to the
internal metre-based system unit (1 ft = 0.3048 m). -/
def ftToSys (x : ℚ) : ℚ := x * (3048 / 10000)

/-- Modelled from the spec: `Units::ToSysUnit(x, unNauticalMiles)`
(1 NM = 1852 m). -/
def nmToSys (x : ℚ) : ℚ := x * 1852

/-- Modelled from the spec: `Units::ToUserUnit(x, unFlightLevel)` — system
altitude (metres) to flight level (hundreds of feet). -/
def sysToFL (x : ℚ) : ℚ := x / (3048 / 100)

/-- Shape of a finished airspace entity. -/
inductive AirspaceShape
  | polygon (points : List GeoPoint)
  | circle (center : GeoPoint) (radius : ℚ)
deriving DecidableEq, Repr

/-- Modelled from the spec: a finished immutable airspace record as handed to
the output sink by `AddPolygon`/`AddCircle` (`SetProperties`, `SetRadio`,
`SetDays`). -/
structure Airspace where
  shape : AirspaceShape
  Name : List Char
  Ty : AirspaceClass
  Base : AirspaceAltitude
  Top : AirspaceAltitude
  Radio : List Char
  days : AirspaceActivity
deriving DecidableEq, Repr

/-- The mutable accumulator `TempAirspaceType`.  The source field `Type` is
renamed `Ty` (`Type` is reserved in Lean). -/
structure TempAirspaceType where
  Waiting : Bool
  Name : List Char
  Radio : List Char
  Ty : AirspaceClass
  Base : AirspaceAltitude
  Top : AirspaceAltitude
  days_of_operation : AirspaceActivity
  points : List GeoPoint
  Center : GeoPoint
  Radius : ℚ
  Rotation : ℤ
deriving DecidableEq, Repr

/-- `TempAirspaceType::reset` (source lines 108-120): note that it does not
touch `Name`, `Base` or `Top`. -/
def TempAirspaceType.reset (t : TempAirspaceType) : TempAirspaceType :=
  { t with
    days_of_operation := .all
    Radio := []
    Ty := .OTHER
    points := []
    Center := ⟨0, 0⟩
    Rotation := 1
    Radius := 0
    Waiting := true }

/-- Zero altitude record used for the default-constructed accumulator. -/
def initAlt : AirspaceAltitude := ⟨0, 0, 0, .UNDEFINED⟩

/-- The accumulator as built by the `TempAirspaceType` constructor:
default-constructed members followed by `reset()`. -/
def initTemp : TempAirspaceType :=
  TempAirspaceType.reset
    { Waiting := true, Name := [], Radio := [], Ty := .OTHER, Base := initAlt,
      Top := initAlt, days_of_operation := .all, points := [], Center := ⟨0, 0⟩,
      Radius := 0, Rotation := 1 }

/-- `TempAirspaceType::AddPolygon` — emit the pending record as a polygon
airspace into the database (modelled as an append-only list). -/
def TempAirspaceType.AddPolygon (t : TempAirspaceType) (db : List Airspace) : List Airspace :=
  db ++ [{ shape := .polygon t.points, Name := t.Name, Ty := t.Ty, Base := t.Base,
           Top := t.Top, Radio := t.Radio, days := t.days_of_operation }]

/-- `TempAirspaceType::AddCircle` — emit the pending record as a circle
airspace into the database. -/
def TempAirspaceType.AddCircle (t : TempAirspaceType) (db : List Airspace) : List Airspace :=
  db ++ [{ shape := .circle t.Center t.Radius, Name := t.Name, Ty := t.Ty, Base := t.Base,
           Top := t.Top, Radio := t.Radio, days := t.days_of_operation }]

/-! ## ReadAltitude -/

/-- State of the `ReadAltitude` character scan: the altitude record being
filled, the `fHasUnit` flag, and a flag recording that the scan read a
character beyond the terminating NUL (which the C code can do). -/
structure AltScan where
  alt : AirspaceAltitude
  fHasUnit : Bool
  oob : Bool
deriving DecidableEq, Repr

/-- Case-insensitive match of the token `pat` at position `i` of `s`
(the C `_tcsnicmp(p, pat, pat.length) == 0`; never reads past the NUL since
the virtual terminator mismatches every letter). -/
def matchTokCI (s : List Char) (i : Nat) : List Char → Bool
  | [] => true
  | c :: cs => lowerC (charAtD s i) = lowerC c && matchTokCI s (i + 1) cs

/-- One iteration body of the `ReadAltitude` for-loop (source lines 164-246):
skip spaces, then the first matching branch; returns the updated state and
the value of `p` at the end of the body (the loop increment adds one more). -/
def altBodyAt (s : List Char) (st : AltScan) (j : Nat) : AltScan × Nat :=
  let c := charAtD s j
  let a := st.alt
  if isDigitC c then
    let r := strtod s j
    let a :=
      if a.type = .FL then { a with flight_level := r.1 }
      else if a.type = .AGL then { a with altitude_above_terrain := r.1 }
      else { a with altitude := r.1 }
    ({ st with alt := a }, r.2)
  else if matchTokCI s j ('G' :: 'N' :: 'D' :: []) then
    if a.altitude > 0 then
      ({ st with alt := { a with type := .AGL, altitude_above_terrain := a.altitude,
                                 altitude := 0 } }, j + 3)
    else
      ({ st with alt := { a with type := .AGL, flight_level := 0, altitude := 0,
                                 altitude_above_terrain := -1 },
                 fHasUnit := true }, j + 3)
  else if matchTokCI s j ('S' :: 'F' :: 'C' :: []) then
    ({ st with alt := { a with type := .AGL, flight_level := 0, altitude := 0,
                               altitude_above_terrain := -1 },
               fHasUnit := true }, j + 3)
  else if matchTokCI s j ('F' :: 'L' :: []) then
    ({ st with alt := { a with type := .FL }, fHasUnit := true }, j + 2)
  else if c = 'F' ∨ c = 'f' then
    ({ st with alt := { a with altitude := ftToSys a.altitude }, fHasUnit := true },
     if charAtD s (j + 1) = 'T' ∨ charAtD s (j + 1) = 't' then j + 2 else j + 1)
  else if matchTokCI s j ('M' :: 'S' :: 'L' :: []) then
    ({ st with alt := { a with type := .MSL } }, j + 3)
  else if c = 'M' ∨ c = 'm' then
    ({ st with fHasUnit := true }, j + 1)
  else if matchTokCI s j ('A' :: 'G' :: 'L' :: []) then
    ({ st with alt := { a with type := .AGL, altitude_above_terrain := a.altitude,
                               altitude := 0 } }, j + 3)
  else if matchTokCI s j ('S' :: 'T' :: 'D' :: []) then
    ({ st with alt := { a with type := .FL, flight_level := sysToFL a.altitude } }, j + 3)
  else if matchTokCI s j ('U' :: 'N' :: 'L' :: []) then
    ({ st with alt := { a with type := .MSL, altitude_above_terrain := -1,
                               altitude := 50000 } }, j + 3)
  else (st, j)

/-- One iteration body of the `ReadAltitude` for-loop: the space-skip
followed by the branch dispatch. -/
def altBody (s : List Char) (st : AltScan) (i : Nat) : AltScan × Nat :=
  altBodyAt s st (skipSp s i)

/-- Fuel-structured form of the `ReadAltitude` for-loop.  Every iteration
moves the scan index forward by at least one (`altBody_ge`), and the loop
exits as soon as the index passes `s.length + 1`, so `s.length + 2` fuel
always suffices and the fuel-exhaustion branch is unreachable from
`altLoop`. -/
def altLoopF (s : List Char) : Nat → AltScan → Nat → AltScan
  | 0, st, _ => st
  | f + 1, st, i =>
    match cAt s i with
    | none => { st with oob := true }
    | some c =>
      if c = nulChar then st
      else altLoopF s f (altBody s st i).1 ((altBody s st i).2 + 1)

/-- The `ReadAltitude` for-loop (source line 164): test the character at `p`,
run the body, increment.  A read beyond the single terminating NUL ends the
scan with the `oob` flag set (in C this is an out-of-bounds read). -/
def altLoop (s : List Char) (st : AltScan) (i : Nat) : AltScan :=
  altLoopF s (s.length + 2) st i

/-- `ReadAltitude` (source lines 154-258): zero the record, run the scan, then
apply the post-scan feet conversion and the MSL default. -/
def ReadAltitude (s : List Char) : AltScan :=
  let r := altLoop s ⟨initAlt, false, false⟩ 0
  let a := r.alt
  let a :=
    if r.fHasUnit = false ∧ a.type ≠ .FL then
      { a with altitude := ftToSys a.altitude,
               altitude_above_terrain := ftToSys a.altitude_above_terrain }
    else a
  let a := if a.type = .UNDEFINED then { a with type := .MSL } else a
  { r with alt := a }

/-! ## ReadCoords -/

/-- Optional `:MM[:SS]` tail of one coordinate group (source lines 274-292 and
313-331): after a `:` the minutes are scanned, a NUL right after them is
malformed, and a second `:` introduces seconds with the same end check. -/
def dmsTail (s : List Char) (deg : ℚ) (i : Nat) : Option (ℚ × Nat) :=
  if charAtD s i = ':' then
    let r := strtod s (i + 1)
    if charAtD s r.2 = nulChar then none
    else
      let deg2 := deg + r.1 / 60
      if charAtD s r.2 = ':' then
        let r2 := strtod s (r.2 + 1)
        if charAtD s r2.2 = nulChar then none
        else some (deg2 + r2.1 / 3600, r2.2)
      else some (deg2, r.2)
  else some (deg, i)

/-- `ReadCoords` (source lines 260-346) with the two hemisphere positions
exposed: parses `DD[:MM[:SS]] H DDD[:MM[:SS]] H`, returns the normalized
point together with the index at which each hemisphere character was
consumed.  The longitude no-advance check compares the scan position against
the start of the whole string (`Text == Stop`, source line 310), exactly as
the C code does. -/
def readCoordsA (s : List Char) : Option (GeoPoint × Nat × Nat) :=
  let r1 := strtod s 0
  if r1.2 = 0 ∨ charAtD s r1.2 = nulChar then none
  else
    match dmsTail s r1.1 r1.2 with
    | none => none
    | some (lat0, i2) =>
      let i3 := if charAtD s i2 = ' ' then i2 + 1 else i2
      if charAtD s i3 = nulChar then none
      else
        let lat := if charAtD s i3 = 'S' ∨ charAtD s i3 = 's' then -lat0 else lat0
        let i4 := i3 + 1
        if charAtD s i4 = nulChar then none
        else
          let r2 := strtod s i4
          if r2.2 = 0 ∨ charAtD s r2.2 = nulChar then none
          else
            match dmsTail s r2.1 r2.2 with
            | none => none
            | some (lon0, i6) =>
              let i7 := if charAtD s i6 = ' ' then i6 + 1 else i6
              if charAtD s i7 = nulChar then none
              else
                let lon := if charAtD s i7 = 'W' ∨ charAtD s i7 = 'w' then -lon0 else lon0
                some (GeoPoint.normalize ⟨lat, lon⟩, i3, i7)

/-- `ReadCoords` — the point alone. -/
def ReadCoords (s : List Char) : Option GeoPoint := (readCoordsA s).map (·.1)

/-! ## Arc and sector tessellation -/

/-- Modelled from the spec: the external spherical-geometry collaborators of
`Math/Earth.hpp` and `GeoPoint` — `FindLatitudeLongitude` (`proj`, point at
center/bearing/distance), `GeoPoint::distance_bearing` (`distBearing`,
returning distance then bearing) and `Bearing` (`bearingOf`).  Angles are in
degrees, distances in system units. -/
structure GeoModel where
  proj : GeoPoint → ℚ → ℚ → GeoPoint
  distBearing : GeoPoint → GeoPoint → ℚ × ℚ
  bearingOf : GeoPoint → GeoPoint → ℚ

/-- Trivial instantiation of the geometry collaborators, used to evaluate
runs whose lines never reach an arc or sector directive. -/
def trivGeo : GeoModel where
  proj := fun c _ _ => c
  distBearing := fun _ _ => (0, 0)
  bearingOf := fun _ _ => 0

/-- `Angle::as_bearing` — representative of the angle in `[0, 360)`. -/
def asBearing (x : ℚ) : ℚ := x - 360 * ⌊x / 360⌋

/-- Loop of `CalculateSector` (source lines 362-366): while the raw
difference to the end bearing exceeds 7.5°, project a point at the current
bearing, then advance the bearing by the signed step.  The C loop has no
fuel; `arcFuel` below is a strict upper bound on its iteration count proved
in `arcHit_exists`. -/
def sectorLoop (g : GeoModel) (c : GeoPoint) (radius eb step : ℚ) :
    Nat → ℚ → List GeoPoint
  | 0, _ => []
  | fuel + 1, sb =>
    if |eb - sb| > 15 / 2 then
      g.proj c sb radius :: sectorLoop g c radius eb step fuel (asBearing (sb + step))
    else []

/-- Loop of `AddArc` (source lines 392-396): while the raw difference to the
end bearing exceeds 7.5°, advance the bearing by the signed step first, then
project and append. -/
def arcLoop (g : GeoModel) (c : GeoPoint) (radius eb step : ℚ) :
    Nat → ℚ → List GeoPoint
  | 0, _ => []
  | fuel + 1, sb =>
    if |eb - sb| > 15 / 2 then
      let sb2 := asBearing (sb + step)
      g.proj c sb2 radius :: arcLoop g c radius eb step fuel sb2
    else []

/-- Bearing reached by the `AddArc` loop after `k` advances: the raw start
bearing at `k = 0`, and the normalized `sb + k·step` afterwards. -/
def arcPos (sb step : ℚ) (k : Nat) : ℚ :=
  if k = 0 then sb else asBearing (sb + step * k)

/-- Concrete geometry instantiation that records the projection arguments,
used to exercise the arc tessellation on explicit numbers. -/
def stepGeo : GeoModel where
  proj := fun _ b r => ⟨b, r⟩
  distBearing := fun _ _ => (10, 0)
  bearingOf := fun _ _ => 20

/-- Fuel bound for the two tessellation loops. -/
def arcFuel : Nat := 256

/-- `CalculateSector` (source lines 348-371): radius in NM, start and end
bearings scanned after skipping one separator character each, both taken
`as_bearing`; intermediate points pushed before the bearing advances, then
one final point projected at the end bearing. -/
def CalculateSector (g : GeoModel) (line : List Char) (t : TempAirspaceType) :
    TempAirspaceType :=
  let step : ℚ := (t.Rotation : ℚ) * 5
  let r1 := strtod line 2
  let radius := nmToSys r1.1
  let r2 := strtod line (r1.2 + 1)
  let sb := asBearing r2.1
  let r3 := strtod line (r2.2 + 1)
  let eb := asBearing r3.1
  { t with points := t.points ++ sectorLoop g t.Center radius eb step arcFuel sb
                       ++ [g.proj t.Center eb radius] }

/-- `AddArc` (source lines 373-401): push the literal start point, derive
start bearing and radius from the center/start pair and the end bearing from
the center/end pair, walk intermediate projected points, then push the
literal end point. -/
def AddArc (g : GeoModel) (startP endP : GeoPoint) (t : TempAirspaceType) :
    TempAirspaceType :=
  let step : ℚ := (t.Rotation : ℚ) * 5
  let dv := g.distBearing t.Center startP
  let sb := dv.2
  let radius := dv.1
  let eb := g.bearingOf t.Center endP
  { t with points := t.points ++ [startP]
                       ++ arcLoop g t.Center radius eb step arcFuel sb ++ [endP] }

/-- `CalculateArc` (source lines 403-422): read the start coordinates after
the three-character directive, find the comma, read the end coordinates after
it; any failure silently leaves the pending record unchanged. -/
def CalculateArc (g : GeoModel) (line : List Char) (t : TempAirspaceType) :
    TempAirspaceType :=
  match ReadCoords (line.drop 3) with
  | none => t
  | some sp =>
    match chrIdx line ',' with
    | none => t
    | some k =>
      match ReadCoords (line.drop (k + 1)) with
      | none => t
      | some ep => AddArc g sp ep t

/-! ## OpenAir line parser -/

/-- Table of OpenAir class strings (source lines 62-77), in match order. -/
def airspace_class_strings : List (List Char × AirspaceClass) :=
  [ (['R'], .RESTRICT), (['Q'], .DANGER), (['P'], .PROHIBITED),
    (['C', 'T', 'R'], .CTR), (['A'], .CLASSA), (['B'], .CLASSB),
    (['C'], .CLASSC), (['D'], .CLASSD), (['G', 'P'], .NOGLIDER),
    (['W'], .WAVE), (['E'], .CLASSE), (['F'], .CLASSF),
    (['T', 'M', 'Z'], .TMZ), (['G'], .CLASSG) ]

/-- `ParseType` (source lines 424-432): first table entry whose string is a
(case-sensitive) prefix of the text, else OTHER. -/
def ParseType (text : List Char) : AirspaceClass :=
  match airspace_class_strings.find? (fun p => (afterPfx p.1 text).isSome) with
  | some p => p.2
  | none => .OTHER

/-- `value_after_space` (source lines 443-455): empty input is returned as
the empty value; otherwise the first character must be a space, which is
skipped. -/
def value_after_sp (p : List Char) : Option (List Char) :=
  if p.isEmpty then some p
  else if charAtD p 0 ≠ ' ' then none
  else some (p.drop 1)

/-- `ParseLine` (source lines 457-573), the OpenAir dialect line parser:
returns the success flag, the updated database and the updated accumulator. -/
def ParseLine (g : GeoModel) (db : List Airspace) (line : List Char)
    (t : TempAirspaceType) : Bool × List Airspace × TempAirspaceType :=
  let c0 := charAtD line 0
  if c0 = 'D' ∨ c0 = 'd' then
    let c1 := charAtD line 1
    if c1 = 'P' ∨ c1 = 'p' then
      match value_after_sp (line.drop 2) with
      | none => (true, db, t)
      | some v =>
        match ReadCoords v with
        | none => (false, db, t)
        | some pt => (true, db, { t with points := t.points ++ [pt] })
    else if c1 = 'C' ∨ c1 = 'c' then
      let t2 := { t with Radius := nmToSys (strtod line 2).1 }
      (true, t2.AddCircle db, t2.reset)
    else if c1 = 'A' ∨ c1 = 'a' then
      (true, db, CalculateSector g line t)
    else if c1 = 'B' ∨ c1 = 'b' then
      (true, db, CalculateArc g line t)
    else (true, db, t)
  else if c0 = 'V' ∨ c0 = 'v' then
    if (afterPfxCI ('X' :: '=' :: []) (line.drop 2)).isSome then
      match ReadCoords (line.drop 4) with
      | none => (false, db, t)
      | some pt => (true, db, { t with Center := pt })
    else if (afterPfxCI ('D' :: '=' :: '-' :: []) (line.drop 2)).isSome then
      (true, db, { t with Rotation := -1 })
    else if (afterPfxCI ('D' :: '=' :: '+' :: []) (line.drop 2)).isSome then
      (true, db, { t with Rotation := 1 })
    else (true, db, t)
  else if c0 = 'A' ∨ c0 = 'a' then
    let c1 := charAtD line 1
    if c1 = 'C' ∨ c1 = 'c' then
      match value_after_sp (line.drop 2) with
      | none => (true, db, t)
      | some v =>
        let db2 := if t.Waiting = false then t.AddPolygon db else db
        let t2 := t.reset
        (true, db2, { t2 with Ty := ParseType v, Waiting := false })
    else if c1 = 'N' ∨ c1 = 'n' then
      match value_after_sp (line.drop 2) with
      | none => (true, db, t)
      | some v => (true, db, { t with Name := v })
    else if c1 = 'L' ∨ c1 = 'l' then
      match value_after_sp (line.drop 2) with
      | none => (true, db, t)
      | some v => (true, db, { t with Base := (ReadAltitude v).alt })
    else if c1 = 'H' ∨ c1 = 'h' then
      match value_after_sp (line.drop 2) with
      | none => (true, db, t)
      | some v => (true, db, { t with Top := (ReadAltitude v).alt })
    else if c1 = 'R' ∨ c1 = 'r' then
      match value_after_sp (line.drop 2) with
      | none => (true, db, t)
      | some v => (true, db, { t with Radio := v })
    else (true, db, t)
  else (true, db, t)

/-- Sequential OpenAir line processing as done by `AirspaceParser::Parse`
for a detected OpenAir file, stopping at the first failed line. -/
def runLines (g : GeoModel) (db : List Airspace) (t : TempAirspaceType) :
    List (List Char) → Bool × List Airspace × TempAirspaceType
  | [] => (true, db, t)
  | l :: ls =>
    match ParseLine g db l t with
    | (true, db2, t2) => runLines g db2 t2 ls
    | (false, db2, t2) => (false, db2, t2)

/-- OpenAir file processing including the end-of-file finalization of
`AirspaceParser::Parse` (source lines 864-866): a pending record that is not
in the waiting state is emitted as a polygon. -/
def ParseOpenAir (g : GeoModel) (lines : List (List Char)) :
    Bool × List Airspace × TempAirspaceType :=
  match runLines g [] initTemp lines with
  | (true, db, t) => (true, if t.Waiting = false then t.AddPolygon db else db, t)
  | r => r

/-! ## TNP dialect -/

/-- `ParseClassTNP` (source lines 575-600): single uppercase letter A-G. -/
def ParseClassTNP (text : List Char) : AirspaceClass :=
  let c := charAtD text 0
  if c = 'A' then .CLASSA
  else if c = 'B' then .CLASSB
  else if c = 'C' then .CLASSC
  else if c = 'D' then .CLASSD
  else if c = 'E' then .CLASSE
  else if c = 'F' then .CLASSF
  else if c = 'G' then .CLASSG
  else .OTHER

/-- `ParseTypeTNP` (source lines 602-628): case-insensitive whole-word type
vocabulary. -/
def ParseTypeTNP (text : List Char) : AirspaceClass :=
  if icmpEq text ('C' :: []) ∨ icmpEq text ('C' :: 'T' :: 'A' :: [])
      ∨ icmpEq text ('C' :: 'T' :: 'A' :: '/' :: 'C' :: 'T' :: 'R' :: []) then .CTR
  else if icmpEq text ('R' :: [])
      ∨ icmpEq text ('R' :: 'E' :: 'S' :: 'T' :: 'R' :: 'I' :: 'C' :: 'T' :: 'E' :: 'D' :: []) then .RESTRICT
  else if icmpEq text ('P' :: [])
      ∨ icmpEq text ('P' :: 'R' :: 'O' :: 'H' :: 'I' :: 'B' :: 'I' :: 'T' :: 'E' :: 'D' :: []) then .RESTRICT
  else if icmpEq text ('D' :: [])
      ∨ icmpEq text ('D' :: 'A' :: 'N' :: 'G' :: 'E' :: 'R' :: []) then .RESTRICT
  else if icmpEq text ('G' :: [])
      ∨ icmpEq text ('G' :: 'S' :: 'E' :: 'C' :: []) then .WAVE
  else .OTHER

/-- `Angle::dms` — degrees, minutes, seconds to decimal degrees. -/
def dmsQ (d m s : ℤ) : ℚ := (d : ℚ) + (m : ℚ) / 60 + (s : ℚ) / 3600

/-- `ParseCoordsTNP` (source lines 630-670): compact `N542500 E0105000`
form.  The packed integer is split with C truncating division (`Int.tdiv`)
and `labs`, the hemisphere letters S/W negate, and the point is normalized.
The function always reports success, as the C code does. -/
def ParseCoordsTNP (s : List Char) : Bool × GeoPoint :=
  let negLat := charAtD s 0 = 'S' ∨ charAtD s 0 = 's'
  let r1 := strtol s 1
  let sec1 := r1.1
  let deg1 : ℤ := (Int.tdiv sec1 10000).natAbs
  let min1 : ℤ := (Int.tdiv (sec1 - deg1 * 10000) 100).natAbs
  let sec1b : ℤ := sec1 - min1 * 100 - deg1 * 10000
  let lat0 := dmsQ deg1 min1 sec1b
  let lat := if negLat then -lat0 else lat0
  let i := if charAtD s r1.2 = ' ' then r1.2 + 1 else r1.2
  let negLon := charAtD s i = 'W' ∨ charAtD s i = 'w'
  let r2 := strtol s (i + 1)
  let sec2 := r2.1
  let deg2 : ℤ := (Int.tdiv sec2 10000).natAbs
  let min2 : ℤ := (Int.tdiv (sec2 - deg2 * 10000) 100).natAbs
  let sec2b : ℤ := sec2 - min2 * 100 - deg2 * 10000
  let lon0 := dmsQ deg2 min2 sec2b
  let lon := if negLon then -lon0 else lon0
  (true, GeoPoint.normalize ⟨lat, lon⟩)

/-- `ParseArcTNP` (source lines 672-704): arc relative to the last
accumulated boundary point; fails without one, or when the ` CENTRE=` /
` TO=` structure is missing; the center is written before the `TO=`
sub-field is examined, exactly as in the C code. -/
def ParseArcTNP (g : GeoModel) (s : List Char) (t : TempAirspaceType) :
    Bool × TempAirspaceType :=
  match t.points.getLast? with
  | none => (false, t)
  | some fromP =>
    match findSpIdx s with
    | none => (false, t)
    | some k =>
      match afterPfxCI (' ' :: 'C' :: 'E' :: 'N' :: 'T' :: 'R' :: 'E' :: '=' :: [])
          (s.drop k) with
      | none => (false, t)
      | some param =>
        let t2 := { t with Center := (ParseCoordsTNP param).2 }
        match findSpIdx param with
        | none => (false, t2)
        | some k1 =>
          match findSpIdx (param.drop (k1 + 1)) with
          | none => (false, t2)
          | some k2 =>
            match afterPfxCI (' ' :: 'T' :: 'O' :: '=' :: [])
                (param.drop (k1 + 1 + k2)) with
            | none => (false, t2)
            | some toParam =>
              (true, AddArc g fromP (ParseCoordsTNP toParam).2 t2)

/-- `ParseCircleTNP` (source lines 706-724): `RADIUS=` then ` CENTRE=`; the
radius is written into the pending record before the centre sub-field can
still fail, exactly as in the C code. -/
def ParseCircleTNP (s : List Char) (t : TempAirspaceType) :
    Bool × TempAirspaceType :=
  match afterPfxCI ('R' :: 'A' :: 'D' :: 'I' :: 'U' :: 'S' :: '=' :: []) s with
  | none => (false, t)
  | some param =>
    let t2 := { t with Radius := nmToSys (strtod param 0).1 }
    match findSpIdx param with
    | none => (false, t2)
    | some k =>
      match afterPfxCI (' ' :: 'C' :: 'E' :: 'N' :: 'T' :: 'R' :: 'E' :: '=' :: [])
          (param.drop k) with
      | none => (false, t2)
      | some cparam =>
        (true, { t2 with Center := (ParseCoordsTNP cparam).2 })

/-- Keyword `INCLUDE=` of the TNP dialect. -/
def kwInclude : List Char := 'I' :: 'N' :: 'C' :: 'L' :: 'U' :: 'D' :: 'E' :: '=' :: []

/-- `ParseLineTNP` (source lines 726-794): the TNP dialect line parser with
its file-scoped `ignore` flag. -/
def ParseLineTNP (g : GeoModel) (db : List Airspace) (line : List Char)
    (t : TempAirspaceType) (ign : Bool) :
    Bool × List Airspace × TempAirspaceType × Bool :=
  match afterPfxCI kwInclude line with
  | some param =>
    if icmpEq param ('Y' :: 'E' :: 'S' :: []) then (true, db, t, false)
    else if icmpEq param ('N' :: 'O' :: []) then (true, db, t, true)
    else (true, db, t, ign)
  | none =>
    if ign then (true, db, t, ign)
    else
      match afterPfxCI ('P' :: 'O' :: 'I' :: 'N' :: 'T' :: '=' :: []) line with
      | some param =>
        match ParseCoordsTNP param with
        | (false, _) => (false, db, t, ign)
        | (true, pt) => (true, db, { t with points := t.points ++ [pt] }, ign)
      | none =>
        match afterPfxCI ('C' :: 'I' :: 'R' :: 'C' :: 'L' :: 'E' :: ' ' :: []) line with
        | some param =>
          match ParseCircleTNP param t with
          | (false, t2) => (false, db, t2, ign)
          | (true, t2) => (true, t2.AddCircle db, t2, ign)
        | none =>
          match afterPfxCI ('C' :: 'L' :: 'O' :: 'C' :: 'K' :: 'W' :: 'I' :: 'S' :: 'E' :: ' ' :: []) line with
          | some param =>
            let t2 := { t with Rotation := 1 }
            match ParseArcTNP g param t2 with
            | (false, t3) => (false, db, t3, ign)
            | (true, t3) => (true, db, t3, ign)
          | none =>
            match afterPfxCI ('A' :: 'N' :: 'T' :: 'I' :: '-' :: 'C' :: 'L' :: 'O' :: 'C' :: 'K' :: 'W' :: 'I' :: 'S' :: 'E' :: ' ' :: []) line with
            | some param =>
              let t2 := { t with Rotation := -1 }
              match ParseArcTNP g param t2 with
              | (false, t3) => (false, db, t3, ign)
              | (true, t3) => (true, db, t3, ign)
            | none =>
              match afterPfxCI ('T' :: 'I' :: 'T' :: 'L' :: 'E' :: '=' :: []) line with
              | some param => (true, db, { t with Name := param }, ign)
              | none =>
                match afterPfxCI ('T' :: 'Y' :: 'P' :: 'E' :: '=' :: []) line with
                | some param =>
                  let db2 := if t.Waiting = false then t.AddPolygon db else db
                  let t2 := t.reset
                  (true, db2, { t2 with Ty := ParseTypeTNP param, Waiting := false }, ign)
                | none =>
                  match afterPfxCI ('C' :: 'L' :: 'A' :: 'S' :: 'S' :: '=' :: []) line with
                  | some param =>
                    if t.Ty = .OTHER then
                      (true, db, { t with Ty := ParseClassTNP param }, ign)
                    else (true, db, t, ign)
                  | none =>
                    match afterPfxCI ('T' :: 'O' :: 'P' :: 'S' :: '=' :: []) line with
                    | some param => (true, db, { t with Top := (ReadAltitude param).alt }, ign)
                    | none =>
                      match afterPfxCI ('B' :: 'A' :: 'S' :: 'E' :: '=' :: []) line with
                      | some param => (true, db, { t with Base := (ReadAltitude param).alt }, ign)
                      | none =>
                        match afterPfxCI ('R' :: 'A' :: 'D' :: 'I' :: 'O' :: '=' :: []) line with
                        | some param => (true, db, { t with Radio := param }, ign)
                        | none =>
                          match afterPfxCI ('A' :: 'C' :: 'T' :: 'I' :: 'V' :: 'E' :: '=' :: []) line with
                          | some param =>
                            if icmpEq param ('W' :: 'E' :: 'E' :: 'K' :: 'E' :: 'N' :: 'D' :: []) then
                              (true, db, { t with days_of_operation := .weekend }, ign)
                            else if icmpEq param ('W' :: 'E' :: 'E' :: 'K' :: 'D' :: 'A' :: 'Y' :: []) then
                              (true, db, { t with days_of_operation := .weekdays }, ign)
                            else if icmpEq param ('E' :: 'V' :: 'E' :: 'R' :: 'Y' :: 'D' :: 'A' :: 'Y' :: []) then
                              (true, db, { t with days_of_operation := .all }, ign)
                            else (true, db, t, ign)
                          | none => (true, db, t, ign)

/-- Sequential TNP line processing as done by `AirspaceParser::Parse` for a
detected TNP file, stopping at the first failed line. -/
def runTNP (g : GeoModel) (db : List Airspace) (t : TempAirspaceType) (ign : Bool) :
    List (List Char) → Bool × List Airspace × TempAirspaceType × Bool
  | [] => (true, db, t, ign)
  | l :: ls =>
    match ParseLineTNP g db l t ign with
    | (true, db2, t2, ig2) => runTNP g db2 t2 ig2 ls
    | r => r

/-- Value of a digit character. -/
def dv (c : Char) : Nat := c.toNat - 48

/-- Value accumulated by a digit-run scan over `ds`, starting from `acc` —
the functional counterpart of `digRunF`'s accumulator. -/
def digitsVal (acc : Nat) : List Char → Nat
  | [] => acc
  | c :: cs => digitsVal (acc * 10 + dv c) cs

/-! ## Supporting lemmas

The scan loops advance their index at every step and exit at the string
end, so the fuel given to the fuel-structured forms above suffices. -/

theorem skipSpF_ge (s : List Char) : ∀ (f i : Nat), i ≤ skipSpF s f i := by
  intro f
  induction f with
  | zero => intro i; exact Nat.le_refl i
  | succ f ih =>
    intro i
    unfold skipSpF
    split
    · have := ih (i + 1)
      omega
    · exact Nat.le_refl i

theorem skipSp_ge (s : List Char) (i : Nat) : i ≤ skipSp s i := skipSpF_ge s s.length i

theorem digRunF_ge (s : List Char) : ∀ (f acc i : Nat), i ≤ (digRunF s f acc i).2 := by
  intro f
  induction f with
  | zero => intro acc i; exact Nat.le_refl i
  | succ f ih =>
    intro acc i
    unfold digRunF
    split
    · have := ih (acc * 10 + ((charAtD s i).toNat - 48)) (i + 1)
      omega
    · exact Nat.le_refl i

theorem digRun_ge (s : List Char) (acc i : Nat) : i ≤ (digRun s acc i).2 :=
  digRunF_ge s s.length acc i

theorem strtod_ge (s : List Char) (i : Nat) : i ≤ (strtod s i).2 := by
  have h0 := skipSp_ge s i
  have h1 := digRun_ge s 0 (skipSp s i)
  have h2 := digRun_ge s 0 (skipSp s i + 1)
  have h3 := digRun_ge s 0 ((digRun s 0 (skipSp s i)).2 + 1)
  have h4 := digRun_ge s 0 ((digRun s 0 (skipSp s i + 1)).2 + 1)
  unfold strtod
  dsimp only
  split_ifs <;> dsimp only <;> omega

set_option maxHeartbeats 1600000 in
theorem altBodyAt_ge (s : List Char) (st : AltScan) (j : Nat) : j ≤ (altBodyAt s st j).2 := by
  have h1 := strtod_ge s j
  unfold altBodyAt
  dsimp only
  split_ifs <;> dsimp only <;> omega

theorem altBody_ge (s : List Char) (st : AltScan) (i : Nat) : i ≤ (altBody s st i).2 := by
  have h0 := skipSp_ge s i
  have h1 := altBodyAt_ge s st (skipSp s i)
  unfold altBody
  omega

theorem cAt_some_le (s : List Char) (i : Nat) (c : Char) (h : cAt s i = some c) :
    i ≤ s.length := by
  unfold cAt at h
  split at h
  · omega
  · split at h
    · omega
    · exact absurd h (by simp)

/-! ## Claim theorems

The concrete evaluations below go through kernel reduction; the four core
rational operations are sealed `@[irreducible]` by default and are unsealed
here so that `decide` and `rfl` can compute with them. -/

unseal Rat.mul Rat.add Rat.sub Rat.inv

/-! ## Claim C1 -/

/-- Claim C1: for the OpenAir sequence `AC R`, `AN Test`, `AL SFC`,
`AH FL100`, three `DP` points and end of file, exactly one Polygon airspace
is emitted with class RESTRICT, name "Test", base AGL with the surface
sentinel, and the 3 parsed vertices in input order — but the top altitude
comes out as flight level 0, not 100: after matching `FL` the scan advances
past `F`, `L` and the following `1` (branch advance 2 plus the for-loop
increment), so only "00" is scanned as the flight-level number. -/
theorem C1_openair_example (g : GeoModel) :
    (ParseOpenAir g
      ["AC R".data, "AN Test".data, "AL SFC".data, "AH FL100".data,
       "DP 50:00:00 N 010:00:00 E".data, "DP 50:10:00 N 010:00:00 E".data,
       "DP 50:10:00 N 010:10:00 E".data]).1 = true ∧
    (ParseOpenAir g
      ["AC R".data, "AN Test".data, "AL SFC".data, "AH FL100".data,
       "DP 50:00:00 N 010:00:00 E".data, "DP 50:10:00 N 010:00:00 E".data,
       "DP 50:10:00 N 010:10:00 E".data]).2.1 =
      [{ shape := AirspaceShape.polygon
            [⟨50, 10⟩, ⟨301 / 6, 10⟩, ⟨301 / 6, 61 / 6⟩],
         Name := "Test".data, Ty := AirspaceClass.RESTRICT,
         Base := ⟨0, 0, -1, AltBase.AGL⟩, Top := ⟨0, 0, 0, AltBase.FL⟩,
         Radio := [], days := AirspaceActivity.all }] ∧
    (ReadAltitude ("FL100".data)).alt.flight_level = 0 :=
  ⟨rfl, rfl, rfl⟩

/-! ## Claim C2 -/

/-- Claim C2 counterexample: a `DB` line whose coordinates fail to parse is
reported as a success (`true`) with the directive skipped, not as a line
failure as the claim states. -/
theorem C2_counterexample :
    ReadCoords (("DB 9,9".data).drop 3) = none ∧
    ParseLine trivGeo [] ("DB 9,9".data) initTemp = (true, [], initTemp) := by
  decide

/-- `CalculateArc` leaves the pending record unchanged on every failure path:
start coordinate unreadable, no comma, or end coordinate unreadable. -/
theorem CalculateArc_fail (g : GeoModel) (line : List Char) (t : TempAirspaceType)
    (h : ReadCoords (line.drop 3) = none ∨ chrIdx line ',' = none ∨
         ∃ k, chrIdx line ',' = some k ∧ ReadCoords (line.drop (k + 1)) = none) :
    CalculateArc g line t = t := by
  rcases h with hc | hcm | ⟨k, hk, he⟩
  · simp [CalculateArc, hc]
  · cases hs : ReadCoords (line.drop 3) <;> simp [CalculateArc, hs, hcm]
  · cases hs : ReadCoords (line.drop 3) <;> simp [CalculateArc, hs, hk, he]

/-- Claim C2 amended: a `DB` line on which coordinate parsing fails — the
start coordinate unreadable, the comma missing, or the end coordinate
unreadable — is silently tolerated: `CalculateArc` returns without effect and
`ParseLine` reports success with database and accumulator unchanged.  By
contrast, a coordinate failure on a `DP` line or a `V X=` line makes
`ParseLine` report line failure. -/
theorem C2_coord_failure_policy :
    (∀ (g : GeoModel) (db : List Airspace) (line : List Char) (t : TempAirspaceType),
      (charAtD line 0 = 'D' ∨ charAtD line 0 = 'd') →
      (charAtD line 1 = 'B' ∨ charAtD line 1 = 'b') →
      (ReadCoords (line.drop 3) = none ∨ chrIdx line ',' = none ∨
       ∃ k, chrIdx line ',' = some k ∧ ReadCoords (line.drop (k + 1)) = none) →
      ParseLine g db line t = (true, db, t)) ∧
    (∀ (g : GeoModel) (db : List Airspace) (line : List Char) (t : TempAirspaceType)
       (v : List Char),
      (charAtD line 0 = 'D' ∨ charAtD line 0 = 'd') →
      (charAtD line 1 = 'P' ∨ charAtD line 1 = 'p') →
      value_after_sp (line.drop 2) = some v →
      ReadCoords v = none →
      ParseLine g db line t = (false, db, t)) ∧
    (∀ (g : GeoModel) (db : List Airspace) (line : List Char) (t : TempAirspaceType),
      (charAtD line 0 = 'V' ∨ charAtD line 0 = 'v') →
      (afterPfxCI ('X' :: '=' :: []) (line.drop 2)).isSome = true →
      ReadCoords (line.drop 4) = none →
      ParseLine g db line t = (false, db, t)) := by
  refine ⟨?_, ?_, ?_⟩
  · intro g db line t h0 h1 hf
    rcases h0 with h0 | h0 <;> rcases h1 with h1 | h1 <;>
      simp [ParseLine, h0, h1, CalculateArc_fail g line t hf]
  · intro g db line t v h0 h1 hv hc
    rcases h0 with h0 | h0 <;> rcases h1 with h1 | h1 <;>
      simp [ParseLine, h0, h1, hv, hc]
  · intro g db line t h0 hx hc
    rcases h0 with h0 | h0 <;> simp [ParseLine, h0, hx, hc]

/-- Witness for `C2_coord_failure_policy`: a `DB` line whose end coordinate
(after the comma) fails is tolerated, while a `DP` line and a `V X=` line with
unreadable coordinates each fail. -/
theorem C2_witness :
    ParseLine trivGeo [] ("DB 50:00:00 N 010:00:00 E,X".data) initTemp
      = (true, [], initTemp) ∧
    ParseLine trivGeo [] ("DP X".data) initTemp = (false, [], initTemp) ∧
    ParseLine trivGeo [] ("V X=X".data) initTemp = (false, [], initTemp) :=
  ⟨C2_coord_failure_policy.1 trivGeo [] ("DB 50:00:00 N 010:00:00 E,X".data) initTemp
      (by decide) (by decide) (Or.inr (Or.inr ⟨25, by decide, by decide⟩)),
   C2_coord_failure_policy.2.1 trivGeo [] ("DP X".data) initTemp ("X".data)
      (by decide) (by decide) (by decide) (by decide),
   C2_coord_failure_policy.2.2 trivGeo [] ("V X=X".data) initTemp
      (by decide) (by decide) (by decide)⟩

/-! ## Claim C3 -/

/-- Claim C3 counterexample: after the emission triggered by the second `AC`
line the pending accumulator still carries the previous record's name
"Test" — `reset()` does not restore the name (nor base/top) to its default,
so not all listed fields are back at their defaults after an emission. -/
theorem C3_counterexample :
    (runLines trivGeo [] initTemp
      ["AC R".data, "AN Test".data, "DP 50:00:00 N 010:00:00 E".data,
       "AC Q".data]).2.1.length = 1 ∧
    (runLines trivGeo [] initTemp
      ["AC R".data, "AN Test".data, "DP 50:00:00 N 010:00:00 E".data,
       "AC Q".data]).2.2.Name = "Test".data := by
  decide

/-- Claim C3 amended: every finalization that calls `reset` — the OpenAir
`AC` emission, the OpenAir `DC` circle completion and the TNP `TYPE=`
emission — restores radio, classification, vertex list, center, radius,
rotation and days-of-operation to their defaults, but preserves the name and
the base and top altitudes; and the TNP `CIRCLE` completion performs no reset
at all — it only overwrites radius and center, keeping name, vertices and
the waiting flag. -/
theorem C3_reset_behavior :
    (∀ (g : GeoModel) (db : List Airspace) (line : List Char)
       (t : TempAirspaceType) (v : List Char),
      (charAtD line 0 = 'A' ∨ charAtD line 0 = 'a') →
      (charAtD line 1 = 'C' ∨ charAtD line 1 = 'c') →
      value_after_sp (line.drop 2) = some v →
      t.Waiting = false →
      ParseLine g db line t =
        (true, t.AddPolygon db,
         { Waiting := false, Name := t.Name, Radio := [], Ty := ParseType v,
           Base := t.Base, Top := t.Top, days_of_operation := .all, points := [],
           Center := ⟨0, 0⟩, Radius := 0, Rotation := 1 })) ∧
    (∀ (g : GeoModel) (db : List Airspace) (line : List Char)
       (t : TempAirspaceType),
      (charAtD line 0 = 'D' ∨ charAtD line 0 = 'd') →
      (charAtD line 1 = 'C' ∨ charAtD line 1 = 'c') →
      ParseLine g db line t =
        (true,
         TempAirspaceType.AddCircle { t with Radius := nmToSys (strtod line 2).1 } db,
         { Waiting := true, Name := t.Name, Radio := [], Ty := .OTHER,
           Base := t.Base, Top := t.Top, days_of_operation := .all, points := [],
           Center := ⟨0, 0⟩, Radius := 0, Rotation := 1 })) ∧
    (∀ (g : GeoModel) (db : List Airspace) (param : List Char)
       (t : TempAirspaceType),
      ParseLineTNP g db ('T' :: 'Y' :: 'P' :: 'E' :: '=' :: param) t false =
        (true, (if t.Waiting = false then t.AddPolygon db else db),
         { Waiting := false, Name := t.Name, Radio := [],
           Ty := ParseTypeTNP param, Base := t.Base, Top := t.Top,
           days_of_operation := .all, points := [], Center := ⟨0, 0⟩, Radius := 0,
           Rotation := 1 }, false)) ∧
    ParseLineTNP trivGeo [] ("CIRCLE RADIUS=5 CENTRE=N530000 E0100000".data)
        { initTemp with Name := ['N'], points := [⟨1, 1⟩], Waiting := false } false =
      (true,
       [{ shape := AirspaceShape.circle ⟨53, 10⟩ 9260, Name := ['N'],
          Ty := AirspaceClass.OTHER, Base := initAlt, Top := initAlt,
          Radio := [], days := AirspaceActivity.all }],
       { initTemp with Name := ['N'], points := [⟨1, 1⟩], Waiting := false, Radius := 9260, Center := ⟨53, 10⟩ }, false) := by
  refine ⟨?_, ?_, ?_, ?_⟩
  · intro g db line t v h0 h1 hv hw
    rcases h0 with h0 | h0 <;> rcases h1 with h1 | h1 <;>
      simp [ParseLine, TempAirspaceType.reset, h0, h1, hv, hw]
  · intro g db line t h0 h1
    rcases h0 with h0 | h0 <;> rcases h1 with h1 | h1 <;>
      simp [ParseLine, TempAirspaceType.reset, h0, h1]
  · intro g db param t
    rfl
  · decide

/-- Witness for `C3_reset_behavior` at a concrete second `AC` line, a concrete
`DC` line and a concrete TNP `TYPE=` line. -/
theorem C3_witness :
    ParseLine trivGeo [] ("AC Q".data) { initTemp with Waiting := false } =
      (true, TempAirspaceType.AddPolygon { initTemp with Waiting := false } [],
       { Waiting := false, Name := initTemp.Name, Radio := [],
         Ty := ParseType ("Q".data), Base := initTemp.Base, Top := initTemp.Top,
         days_of_operation := .all, points := [], Center := ⟨0, 0⟩, Radius := 0,
         Rotation := 1 }) ∧
    ParseLine trivGeo [] ("DC 5".data) initTemp =
      (true,
       TempAirspaceType.AddCircle
         { initTemp with Radius := nmToSys (strtod ("DC 5".data) 2).1 } [],
       { Waiting := true, Name := initTemp.Name, Radio := [], Ty := .OTHER,
         Base := initTemp.Base, Top := initTemp.Top, days_of_operation := .all,
         points := [], Center := ⟨0, 0⟩, Radius := 0, Rotation := 1 }) ∧
    ParseLineTNP trivGeo [] ("TYPE=DANGER".data)
        { initTemp with Waiting := false } false =
      (true,
       (if ({ initTemp with Waiting := false } : TempAirspaceType).Waiting = false
        then TempAirspaceType.AddPolygon { initTemp with Waiting := false } []
        else []),
       { Waiting := false, Name := initTemp.Name, Radio := [],
         Ty := ParseTypeTNP ("DANGER".data), Base := initTemp.Base,
         Top := initTemp.Top, days_of_operation := .all, points := [],
         Center := ⟨0, 0⟩, Radius := 0, Rotation := 1 }, false) :=
  ⟨C3_reset_behavior.1 trivGeo [] ("AC Q".data) { initTemp with Waiting := false }
     ("Q".data) (by decide) (by decide) (by decide) (by decide),
   C3_reset_behavior.2.1 trivGeo [] ("DC 5".data) initTemp (by decide) (by decide),
   C3_reset_behavior.2.2.1 trivGeo [] ("DANGER".data)
     { initTemp with Waiting := false }⟩

/-! ## Claim C4 -/

/-- Claim C4 counterexample: in "51 N E" the longitude numeric scan (which
starts at index 4, right after the latitude hemisphere letter) does not
advance, yet `ReadCoords` succeeds with longitude 0 — the longitude
no-advance check compares the scan position against the start of the whole
string and can never fire. -/
theorem C4_counterexample :
    ReadCoords ("51 N E".data) = some ⟨51, 0⟩ ∧
    readCoordsA ("51 N E".data) = some (⟨51, 0⟩, 3, 5) ∧
    (strtod ("51 N E".data) 4).2 = 4 := by
  decide

/-- Claim C4 amended: a numeric scan that does not advance makes the parser
return the malformed result only for the latitude axis (a digitless
longitude is accepted as 0°); exhaustion still fails both axes — whenever
the parser succeeds it consumed a non-NUL character as the hemisphere
letter of each axis. -/
theorem C4_failure_conditions :
    (∀ s : List Char, (strtod s 0).2 = 0 → ReadCoords s = none) ∧
    (∀ (s : List Char) (p : GeoPoint) (h1 h2 : Nat),
      readCoordsA s = some (p, h1, h2) →
      charAtD s h1 ≠ nulChar ∧ charAtD s h2 ≠ nulChar) := by
  constructor
  · intro s h
    simp [ReadCoords, readCoordsA, h]
  · intro s p h1 h2 h
    unfold readCoordsA at h
    dsimp only at h
    repeat' split at h
    all_goals
      first
      | exact Option.noConfusion h
      | (simp only [Option.some_inj, Prod.mk.injEq] at h
         obtain ⟨-, hA, hB⟩ := h
         subst hA
         subst hB
         exact ⟨by assumption, by assumption⟩)

/-- Witness for `C4_failure_conditions`: a digitless latitude fails, and the
successful parse of "51 N E" consumed its hemisphere characters in bounds. -/
theorem C4_witness :
    ReadCoords ("X".data) = none ∧
    (charAtD ("51 N E".data) 3 ≠ nulChar ∧ charAtD ("51 N E".data) 5 ≠ nulChar) :=
  ⟨C4_failure_conditions.1 ("X".data) (by decide),
   C4_failure_conditions.2 ("51 N E".data) ⟨51, 0⟩ 3 5 (by decide)⟩

/-! ## Claim C7 -/

theorem asBearing_mem (x : ℚ) : 0 ≤ asBearing x ∧ asBearing x < 360 := by
  unfold asBearing
  have h1 : ((⌊x / 360⌋ : ℚ)) ≤ x / 360 := Int.floor_le _
  have h2 : x / 360 < (⌊x / 360⌋ : ℚ) + 1 := Int.lt_floor_add_one _
  rw [le_div_iff₀ (by norm_num)] at h1
  rw [div_lt_iff₀ (by norm_num)] at h2
  constructor <;> nlinarith

theorem asBearing_eq_self (x : ℚ) (h0 : 0 ≤ x) (h1 : x < 360) : asBearing x = x := by
  unfold asBearing
  have hz : ⌊x / 360⌋ = 0 := by
    rw [Int.floor_eq_zero_iff, Set.mem_Ico]
    constructor
    · positivity
    · rw [div_lt_iff₀ (by norm_num)]
      linarith
  rw [hz]
  push_cast
  ring

theorem asBearing_add_intmul (x : ℚ) (m : ℤ) : asBearing (x + 360 * m) = asBearing x := by
  unfold asBearing
  have hdiv : (x + 360 * m) / 360 = x / 360 + m := by
    field_simp
    ring
  rw [hdiv, Int.floor_add_int]
  push_cast
  ring

theorem asBearing_idem_add (x y : ℚ) : asBearing (asBearing x + y) = asBearing (x + y) := by
  have h : asBearing x + y = (x + y) + 360 * ((-⌊x / 360⌋ : ℤ) : ℚ) := by
    unfold asBearing
    push_cast
    ring
  rw [h, asBearing_add_intmul]

theorem arcHit_core (u eb : ℚ) (hu0 : 0 ≤ u) (hu1 : u < 360) (he0 : 0 ≤ eb)
    (he1 : eb < 360) :
    ∃ j : ℕ, j ≤ 71 ∧ |eb - asBearing (u + 5 * j)| ≤ 15 / 2 := by
  have hF0 : (0 : ℤ) ≤ ⌊u / 5⌋ := Int.floor_nonneg.mpr (by positivity)
  have hofl : ((⌊u / 5⌋ : ℚ)) ≤ u / 5 := Int.floor_le _
  have hofu : u / 5 < ((⌊u / 5⌋ : ℚ)) + 1 := Int.lt_floor_add_one _
  rw [le_div_iff₀ (by norm_num)] at hofl
  rw [div_lt_iff₀ (by norm_num)] at hofu
  set o : ℚ := u - 5 * (⌊u / 5⌋ : ℚ) with ho
  have ho0 : 0 ≤ o := by simp [ho]; nlinarith
  have ho1 : o < 5 := by simp [ho]; nlinarith
  -- target grid slot
  have hql : (eb - 15 / 2 - o) / 5 ≤ ((⌈(eb - 15 / 2 - o) / 5⌉ : ℚ)) := Int.le_ceil _
  have hqu : ((⌈(eb - 15 / 2 - o) / 5⌉ : ℚ)) < (eb - 15 / 2 - o) / 5 + 1 := Int.ceil_lt_add_one _
  rw [div_le_iff₀ (by norm_num)] at hql
  have hdivmul : ((eb - 15 / 2 - o) / 5) * 5 = eb - 15 / 2 - o := by ring
  have hqu5 : ((⌈(eb - 15 / 2 - o) / 5⌉ : ℚ)) * 5 < eb - 5 / 2 - o := by nlinarith
  -- the chosen slot: m = ⌈(eb-7.5-o)/5⌉ clamped at 0
  have hm : ∃ m : ℕ, (m : ℤ) ≤ 71 ∧ |eb - (o + 5 * m)| ≤ 15 / 2 := by
    by_cases hq0 : 0 ≤ ⌈(eb - 15 / 2 - o) / 5⌉
    · refine ⟨(⌈(eb - 15 / 2 - o) / 5⌉).toNat, ?_, ?_⟩
      · have h71 : ⌈(eb - 15 / 2 - o) / 5⌉ ≤ 71 := by
          by_contra hgt
          push_neg at hgt
          have : (72 : ℚ) ≤ ((⌈(eb - 15 / 2 - o) / 5⌉ : ℚ)) := by
            exact_mod_cast hgt
          nlinarith
        omega
      · have hc : (((⌈(eb - 15 / 2 - o) / 5⌉).toNat : ℚ)) = ((⌈(eb - 15 / 2 - o) / 5⌉ : ℚ)) := by
          exact_mod_cast congrArg (fun z : ℤ => (z : ℚ)) (Int.toNat_of_nonneg hq0)
        rw [abs_le]
        constructor <;> nlinarith [hc]
    · push_neg at hq0
      refine ⟨0, by omega, ?_⟩
      have hqneg : ((⌈(eb - 15 / 2 - o) / 5⌉ : ℚ)) ≤ -1 := by
        have : ⌈(eb - 15 / 2 - o) / 5⌉ ≤ -1 := by omega
        exact_mod_cast this
      rw [abs_le]
      push_cast
      constructor <;> nlinarith
  obtain ⟨m, hm71, hmval⟩ := hm
  -- pick j so that (⌊u/5⌋.toNat + j) % 72 = m
  refine ⟨(m + 72 - (⌊u / 5⌋.toNat % 72)) % 72, ?_, ?_⟩
  · have := Nat.mod_lt (m + 72 - (⌊u / 5⌋.toNat % 72)) (show 0 < 72 by norm_num)
    omega
  · set j : ℕ := (m + 72 - (⌊u / 5⌋.toNat % 72)) % 72 with hj
    set M : ℕ := ⌊u / 5⌋.toNat + j with hM
    have hMmod : M % 72 = m := by
      have hm72 : m < 72 := by omega
      have hj72 : ⌊u / 5⌋.toNat % 72 < 72 := Nat.mod_lt _ (by norm_num)
      omega
    have hFt : ((⌊u / 5⌋.toNat : ℤ)) = ⌊u / 5⌋ := Int.toNat_of_nonneg hF0
    have hMdecomp : M = 72 * (M / 72) + M % 72 := (Nat.div_add_mod M 72).symm
    have hval : asBearing (u + 5 * j) = o + 5 * ((M % 72 : ℕ) : ℚ) := by
      have hu5 : u = o + 5 * ((⌊u / 5⌋.toNat : ℚ)) := by
        have hcast : ((⌊u / 5⌋.toNat : ℚ)) = ((⌊u / 5⌋ : ℚ)) := by exact_mod_cast hFt
        rw [hcast, ho]
        ring
      have hMq : ((M : ℚ)) = ((⌊u / 5⌋.toNat : ℚ)) + (j : ℚ) := by
        rw [hM]
        push_cast
        ring
      have hMdq : ((M : ℚ)) = 72 * ((M / 72 : ℕ) : ℚ) + ((M % 72 : ℕ) : ℚ) := by
        exact_mod_cast congrArg (fun n : ℕ => (n : ℚ)) hMdecomp
      have harg : u + 5 * (j : ℚ) =
          (o + 5 * ((M % 72 : ℕ) : ℚ)) + 360 * ((M / 72 : ℕ) : ℚ) := by
        linarith [hu5, hMq, hMdq]
      have hcast2 : ((M / 72 : ℕ) : ℚ) = (((M / 72 : ℕ) : ℤ) : ℚ) := (Int.cast_natCast _).symm
      rw [harg, hcast2, asBearing_add_intmul, asBearing_eq_self]
      · have : ((M % 72 : ℕ) : ℚ) ≤ 71 := by
          have : M % 72 < 72 := Nat.mod_lt _ (by norm_num)
          exact_mod_cast Nat.le_of_lt_succ (by omega)
        positivity
      · have h71 : ((M % 72 : ℕ) : ℚ) ≤ 71 := by
          have : M % 72 < 72 := Nat.mod_lt _ (by norm_num)
          exact_mod_cast Nat.le_of_lt_succ (by omega)
        nlinarith
    rw [hval, hMmod]
    exact hmval

theorem arcHit_exists (sb eb : ℚ) (r : ℤ) (hr : r = 1 ∨ r = -1)
    (he0 : 0 ≤ eb) (he1 : eb < 360) :
    ∃ k : ℕ, 1 ≤ k ∧ k ≤ 72 ∧ |eb - asBearing (sb + (r : ℚ) * 5 * k)| ≤ 15 / 2 := by
  obtain ⟨hu0, hu1⟩ := asBearing_mem (sb + (r : ℚ) * 5)
  obtain ⟨j, hj71, hjval⟩ :=
    arcHit_core (asBearing (sb + (r : ℚ) * 5)) eb hu0 hu1 he0 he1
  rcases hr with rfl | rfl
  · refine ⟨1 + j, by omega, by omega, ?_⟩
    have h1 : asBearing (asBearing (sb + (1 : ℤ) * 5) + 5 * j) =
        asBearing ((sb + (1 : ℤ) * 5) + 5 * j) := asBearing_idem_add _ _
    have h2 : (sb + ((1 : ℤ) : ℚ) * 5) + 5 * (j : ℚ) =
        sb + ((1 : ℤ) : ℚ) * 5 * ((1 + j : ℕ) : ℚ) := by
      push_cast
      ring
    rw [← h2]
    rw [← h1] at *
    exact hjval
  · rcases Nat.eq_zero_or_pos j with rfl | hjpos
    · refine ⟨1, by omega, by omega, ?_⟩
      have h2 : asBearing (sb + ((-1 : ℤ) : ℚ) * 5 * ((1 : ℕ) : ℚ)) =
          asBearing (sb + ((-1 : ℤ) : ℚ) * 5) := by
        have : sb + ((-1 : ℤ) : ℚ) * 5 * ((1 : ℕ) : ℚ) = sb + ((-1 : ℤ) : ℚ) * 5 := by
          push_cast
          ring
        rw [this]
      rw [h2]
      have h3 : asBearing (asBearing (sb + ((-1 : ℤ) : ℚ) * 5) + 5 * ((0 : ℕ) : ℚ)) =
          asBearing (sb + ((-1 : ℤ) : ℚ) * 5) := by
        have : asBearing (sb + ((-1 : ℤ) : ℚ) * 5) + 5 * ((0 : ℕ) : ℚ) =
            asBearing (sb + ((-1 : ℤ) : ℚ) * 5) := by
          push_cast
          ring
        rw [this, asBearing_eq_self _ hu0 hu1]
      rw [← h3]
      exact hjval
    · refine ⟨1 + (72 - j), by omega, by omega, ?_⟩
      -- sb - 5 - 5*(72-j) = (asBearing (sb - 5) + 5*j) + 360*(-1) up to asBearing
      have h1 : asBearing (asBearing (sb + ((-1 : ℤ) : ℚ) * 5) + 5 * j) =
          asBearing ((sb + ((-1 : ℤ) : ℚ) * 5) + 5 * j) := asBearing_idem_add _ _
      have h2 : (sb + ((-1 : ℤ) : ℚ) * 5) + 5 * (j : ℚ) =
          (sb + ((-1 : ℤ) : ℚ) * 5 * ((1 + (72 - j) : ℕ) : ℚ)) + 360 * ((1 : ℤ) : ℚ) := by
        have hj72 : ((72 - j : ℕ) : ℚ) = 72 - (j : ℚ) := by
          have : (j : ℚ) ≤ 72 := by exact_mod_cast (by omega : j ≤ 72)
          push_cast [Nat.cast_sub (by omega : j ≤ 72)]
          ring
        push_cast [hj72]
        ring
      rw [h1, h2, asBearing_add_intmul] at hjval
      exact hjval

theorem arcPos_zero (sb step : ℚ) : arcPos sb step 0 = sb := rfl

theorem arcPos_pos (sb step : ℚ) (k : Nat) (hk : k ≠ 0) :
    arcPos sb step k = asBearing (sb + step * k) := by
  unfold arcPos
  rw [if_neg hk]

theorem arcPos_shift (sb step : ℚ) (k : Nat) :
    arcPos (asBearing (sb + step)) step k = arcPos sb step (k + 1) := by
  cases k with
  | zero =>
    rw [arcPos_zero, arcPos_pos sb step 1 (by omega)]
    exact congrArg asBearing (by push_cast; ring)
  | succ k =>
    rw [arcPos_pos _ step (k + 1) (by omega), arcPos_pos sb step (k + 2) (by omega),
      asBearing_idem_add]
    exact congrArg asBearing (by push_cast; ring)

theorem arcLoop_eq (g : GeoModel) (c : GeoPoint) (r eb step : ℚ) :
    ∀ (n : Nat) (sb : ℚ) (fuel : Nat),
      (∀ k, k < n → 15 / 2 < |eb - arcPos sb step k|) →
      |eb - arcPos sb step n| ≤ 15 / 2 →
      n ≤ fuel →
      arcLoop g c r eb step fuel sb =
        (List.range n).map (fun k => g.proj c (arcPos sb step (k + 1)) r) := by
  intro n
  induction n with
  | zero =>
    intro sb fuel _ hstop _
    rw [arcPos_zero] at hstop
    cases fuel with
    | zero => rfl
    | succ f =>
      rw [arcLoop, if_neg (by simpa using not_lt_of_le hstop)]
      rfl
  | succ n ih =>
    intro sb fuel hmin hstop hfuel
    obtain ⟨f, rfl⟩ : ∃ f, fuel = f + 1 := ⟨fuel - 1, by omega⟩
    have h0 : 15 / 2 < |eb - sb| := by
      have := hmin 0 (by omega)
      rwa [arcPos_zero] at this
    rw [arcLoop, if_pos h0]
    dsimp only
    rw [ih (asBearing (sb + step)) f
      (fun k hk => by rw [arcPos_shift]; exact hmin (k + 1) (by omega))
      (by rw [arcPos_shift]; exact hstop) (by omega)]
    rw [List.range_succ_eq_map, List.map_cons, List.map_map]
    congr 1
    · rw [show arcPos sb step (0 + 1) = asBearing (sb + step) from by
        rw [← arcPos_shift, arcPos_zero]]
    · apply List.map_congr_left
      intro a _
      show g.proj c (arcPos (asBearing (sb + step)) step (a + 1)) r =
        g.proj c (arcPos sb step (a + 1 + 1)) r
      rw [arcPos_shift]

/-- Claim C7: for every arc-from-points tessellation with rotation sign ±1
(and the end bearing returned by the geometry collaborator as a compass
bearing in [0,360)), the vertices appended to the boundary are exactly the
literal start point, then one projected point per 5°-step of the bearing —
stepping exactly while the raw angular difference to the end bearing
exceeds 7.5° — and finally the literal end point verbatim. -/
theorem C7_addarc_shape (g : GeoModel) (sp ep : GeoPoint) (t : TempAirspaceType)
    (hrot : t.Rotation = 1 ∨ t.Rotation = -1)
    (he0 : 0 ≤ g.bearingOf t.Center ep) (he1 : g.bearingOf t.Center ep < 360) :
    ∃ n : Nat,
      (∀ k, k < n → 15 / 2 <
        |g.bearingOf t.Center ep -
          arcPos (g.distBearing t.Center sp).2 ((t.Rotation : ℚ) * 5) k|) ∧
      |g.bearingOf t.Center ep -
        arcPos (g.distBearing t.Center sp).2 ((t.Rotation : ℚ) * 5) n| ≤ 15 / 2 ∧
      (AddArc g sp ep t).points =
        t.points ++ [sp] ++
          (List.range n).map (fun k =>
            g.proj t.Center
              (arcPos (g.distBearing t.Center sp).2 ((t.Rotation : ℚ) * 5) (k + 1))
              (g.distBearing t.Center sp).1) ++ [ep] := by
  have hex : ∃ k : Nat, |g.bearingOf t.Center ep -
      arcPos (g.distBearing t.Center sp).2 ((t.Rotation : ℚ) * 5) k| ≤ 15 / 2 := by
    obtain ⟨k, hk1, _, hkv⟩ := arcHit_exists (g.distBearing t.Center sp).2
      (g.bearingOf t.Center ep) t.Rotation hrot he0 he1
    refine ⟨k, ?_⟩
    rw [arcPos_pos _ _ k (by omega)]
    exact hkv
  refine ⟨Nat.find hex, fun k hk => lt_of_not_le (Nat.find_min hex hk),
    Nat.find_spec hex, ?_⟩
  have hn : Nat.find hex ≤ 72 := by
    obtain ⟨k, hk1, hk72, hkv⟩ := arcHit_exists (g.distBearing t.Center sp).2
      (g.bearingOf t.Center ep) t.Rotation hrot he0 he1
    refine le_trans (Nat.find_min' hex ?_) hk72
    rw [arcPos_pos _ _ k (by omega)]
    exact hkv
  unfold AddArc
  dsimp only
  rw [arcLoop_eq g t.Center (g.distBearing t.Center sp).1 (g.bearingOf t.Center ep)
    ((t.Rotation : ℚ) * 5) (Nat.find hex) (g.distBearing t.Center sp).2 arcFuel
    (fun k hk => lt_of_not_le (Nat.find_min hex hk)) (Nat.find_spec hex)
    (by unfold arcFuel; omega)]

/-- Witness for `C7_addarc_shape` on an explicit 0°→20° clockwise arc. -/
theorem C7_witness :
    ∃ n : Nat,
      (∀ k, k < n → 15 / 2 <
        |stepGeo.bearingOf initTemp.Center ⟨1, 1⟩ -
          arcPos (stepGeo.distBearing initTemp.Center ⟨0, 0⟩).2
            ((initTemp.Rotation : ℚ) * 5) k|) ∧
      |stepGeo.bearingOf initTemp.Center ⟨1, 1⟩ -
        arcPos (stepGeo.distBearing initTemp.Center ⟨0, 0⟩).2
          ((initTemp.Rotation : ℚ) * 5) n| ≤ 15 / 2 ∧
      (AddArc stepGeo ⟨0, 0⟩ ⟨1, 1⟩ initTemp).points =
        initTemp.points ++ [⟨0, 0⟩] ++
          (List.range n).map (fun k =>
            stepGeo.proj initTemp.Center
              (arcPos (stepGeo.distBearing initTemp.Center ⟨0, 0⟩).2
                ((initTemp.Rotation : ℚ) * 5) (k + 1))
              (stepGeo.distBearing initTemp.Center ⟨0, 0⟩).1) ++ [⟨1, 1⟩] :=
  C7_addarc_shape stepGeo ⟨0, 0⟩ ⟨1, 1⟩ initTemp (Or.inl (by decide)) (by decide)
    (by decide)

/-! ## Claim C8 -/

/-- Helper for C8: while ignoring, any line that is not an `INCLUDE=` line
is a complete no-op that still succeeds. -/
theorem tnpIgnoredLine (g : GeoModel) (db : List Airspace) (line : List Char)
    (t : TempAirspaceType) (h : afterPfxCI kwInclude line = none) :
    ParseLineTNP g db line t true = (true, db, t, true) := by
  simp only [ParseLineTNP, h, if_true]

/-- Helper for C8: a run of ignored lines followed by `INCLUDE=YES` changes
nothing except clearing the ignore flag. -/
theorem tnpIgnoredRunYes (g : GeoModel) (ls : List (List Char)) :
    ∀ (db : List Airspace) (t : TempAirspaceType),
      (∀ l ∈ ls, afterPfxCI kwInclude l = none) →
      runTNP g db t true (ls ++ [("INCLUDE=YES".data)]) = (true, db, t, false) := by
  induction ls with
  | nil =>
    intro db t _
    have e : ParseLineTNP g db ("INCLUDE=YES".data) t true = (true, db, t, false) := rfl
    simp only [List.nil_append, runTNP, e]
  | cons l ls ih =>
    intro db t h
    have e := tnpIgnoredLine g db l t (h l (by simp))
    simp only [List.cons_append, runTNP, e]
    exact ih db t (fun x hx => h x (by simp [hx]))

/-- Claim C8: while the TNP ignore flag is set, every directive line other
than an `INCLUDE=` line succeeds, emits nothing and leaves the pending
record and the flag unchanged; consequently a span `INCLUDE=NO`, any
non-`INCLUDE=` lines, `INCLUDE=YES` emits zero airspaces and leaves the
accumulator untouched. -/
theorem C8_tnp_ignore_span :
    (∀ (g : GeoModel) (db : List Airspace) (line : List Char) (t : TempAirspaceType),
      afterPfxCI kwInclude line = none →
      ParseLineTNP g db line t true = (true, db, t, true)) ∧
    (∀ (g : GeoModel) (ls : List (List Char)) (db : List Airspace)
       (t : TempAirspaceType) (ign : Bool),
      (∀ l ∈ ls, afterPfxCI kwInclude l = none) →
      runTNP g db t ign (("INCLUDE=NO".data) :: (ls ++ [("INCLUDE=YES".data)])) =
        (true, db, t, false)) := by
  refine ⟨tnpIgnoredLine, ?_⟩
  intro g ls db t ign h
  have e : ParseLineTNP g db ("INCLUDE=NO".data) t ign = (true, db, t, true) := rfl
  simp only [runTNP, e]
  exact tnpIgnoredRunYes g ls db t h

/-- Witness for `C8_tnp_ignore_span` on a concrete ignored span. -/
theorem C8_witness :
    ParseLineTNP trivGeo [] ("POINT=N542500 E0105000".data) initTemp true =
      (true, [], initTemp, true) ∧
    runTNP trivGeo [] initTemp false
      (("INCLUDE=NO".data) ::
        (["POINT=N542500 E0105000".data, "TYPE=R".data] ++ [("INCLUDE=YES".data)])) =
      (true, [], initTemp, false) :=
  ⟨C8_tnp_ignore_span.1 trivGeo [] ("POINT=N542500 E0105000".data) initTemp (by decide),
   C8_tnp_ignore_span.2 trivGeo ["POINT=N542500 E0105000".data, "TYPE=R".data] []
     initTemp false (by decide)⟩

/-! ## Claim C5 -/

/-- Claim C5 counterexample: parsing "UNL" does not leave the altitude at
50000 system units — the `UNL` branch never marks a unit as seen, so the
post-scan feet conversion rescales both the altitude and the sentinel. -/
theorem C5_counterexample :
    ¬ ((ReadAltitude ("UNL".data)).alt.type = AltBase.MSL ∧
       (ReadAltitude ("UNL".data)).alt.altitude_above_terrain = -1 ∧
       (ReadAltitude ("UNL".data)).alt.altitude = 50000) := by
  decide

/-- Claim C5 amended: parsing "UNL" yields datum MSL, a negative (scaled)
above-terrain sentinel of -0.3048, and an altitude of 15240 system units
(50000 ft put through the feet-to-system conversion, because `UNL` does not
set the unit-seen flag). -/
theorem C5_unl_parsed :
    (ReadAltitude ("UNL".data)).alt = ⟨15240, 0, -(381 / 1250), AltBase.MSL⟩ ∧
    (ReadAltitude ("UNL".data)).alt.altitude_above_terrain < 0 := by
  decide

/-! ## Claim C6 -/

/-- Claim C6: whenever the `ReadAltitude` scan takes the `GND` branch (the
digit guard failed and the three characters at the scan position match
`GND` case-insensitively), the datum becomes AGL; a strictly positive
previously-read altitude is moved to the above-terrain field and the plain
field zeroed, otherwise the above-terrain field is set to the negative
surface sentinel. -/
theorem C6_gnd_branch (s : List Char) (st : AltScan) (i : Nat)
    (hd : isDigitC (charAtD s (skipSp s i)) = false)
    (hm : matchTokCI s (skipSp s i) ('G' :: 'N' :: 'D' :: []) = true) :
    (altBody s st i).1.alt.type = AltBase.AGL ∧
    (0 < st.alt.altitude →
      (altBody s st i).1.alt.altitude_above_terrain = st.alt.altitude ∧
      (altBody s st i).1.alt.altitude = 0) ∧
    (¬ 0 < st.alt.altitude →
      (altBody s st i).1.alt.altitude_above_terrain = -1 ∧
      (altBody s st i).1.alt.altitude = 0) := by
  unfold altBody altBodyAt
  by_cases hp : st.alt.altitude > 0 <;> simp [hd, hm, hp]

/-- Witness for `C6_gnd_branch` on a concrete state with a positive pending
altitude. -/
theorem C6_witness :
    (altBody ("GND".data) ⟨⟨5, 0, 0, .UNDEFINED⟩, false, false⟩ 0).1.alt.type =
      AltBase.AGL ∧
    (0 < (AltScan.mk ⟨5, 0, 0, .UNDEFINED⟩ false false).alt.altitude →
      (altBody ("GND".data) ⟨⟨5, 0, 0, .UNDEFINED⟩, false, false⟩ 0).1.alt.altitude_above_terrain =
        (AltScan.mk ⟨5, 0, 0, .UNDEFINED⟩ false false).alt.altitude ∧
      (altBody ("GND".data) ⟨⟨5, 0, 0, .UNDEFINED⟩, false, false⟩ 0).1.alt.altitude = 0) ∧
    (¬ 0 < (AltScan.mk ⟨5, 0, 0, .UNDEFINED⟩ false false).alt.altitude →
      (altBody ("GND".data) ⟨⟨5, 0, 0, .UNDEFINED⟩, false, false⟩ 0).1.alt.altitude_above_terrain = -1 ∧
      (altBody ("GND".data) ⟨⟨5, 0, 0, .UNDEFINED⟩, false, false⟩ 0).1.alt.altitude = 0) :=
  C6_gnd_branch ("GND".data) ⟨⟨5, 0, 0, .UNDEFINED⟩, false, false⟩ 0 (by decide)
    (by decide)

/-! ## Claim C9 -/

theorem charAtD_append_right (pre l : List Char) (k : Nat) :
    charAtD (pre ++ l) (pre.length + k) = charAtD l k := by
  induction pre with
  | nil => simp [charAtD]
  | cons c cs ih =>
    have h : (c :: cs).length + k = (cs.length + k) + 1 := by
      simp [Nat.succ_add]
    rw [h]
    simpa [charAtD] using ih

theorem isDigitC_bounds (c : Char) (h : isDigitC c = true) :
    48 ≤ c.toNat ∧ c.toNat ≤ 57 := by
  simpa [isDigitC] using h

theorem isDigitC_ne_sp (c : Char) (h : isDigitC c = true) :
    c ≠ ' ' ∧ c ≠ '-' ∧ c ≠ '+' := by
  obtain ⟨h1, h2⟩ := isDigitC_bounds c h
  refine ⟨?_, ?_, ?_⟩ <;> rintro rfl <;> exact absurd h1 (by decide)

theorem skipSpF_stop (s : List Char) (i : Nat)
    (h : ¬(i < s.length ∧ charAtD s i = ' ')) :
    ∀ f, skipSpF s f i = i := by
  intro f
  cases f with
  | zero => rfl
  | succ f => simp only [skipSpF, if_neg h]

theorem digRunF_split : ∀ (ds pre rest : List Char) (acc f : Nat),
    (∀ c ∈ ds, isDigitC c = true) →
    ds.length ≤ f →
    (rest = [] ∨ isDigitC (charAtD rest 0) = false) →
    digRunF (pre ++ ds ++ rest) f acc pre.length =
      (digitsVal acc ds, pre.length + ds.length) := by
  intro ds
  induction ds with
  | nil =>
    intro pre rest acc f _ _ hrest
    have hstop : ¬(pre.length < (pre ++ [] ++ rest).length ∧
        isDigitC (charAtD (pre ++ [] ++ rest) pre.length) = true) := by
      rcases hrest with rfl | hr
      · simp
      · rintro ⟨-, hd⟩
        have hc : charAtD (pre ++ [] ++ rest) pre.length = charAtD rest 0 := by
          simpa using charAtD_append_right pre rest 0
        rw [hc, hr] at hd
        exact Bool.noConfusion hd
    cases f with
    | zero => rfl
    | succ f =>
      rw [digRunF, if_neg hstop]
      rfl
  | cons c cs ih =>
    intro pre rest acc f hds hf hrest
    obtain ⟨f1, rfl⟩ : ∃ f1, f = f1 + 1 := by
      cases f with
      | zero => simp at hf
      | succ f1 => exact ⟨f1, rfl⟩
    have hc : charAtD (pre ++ (c :: cs) ++ rest) pre.length = c := by
      simpa using charAtD_append_right pre ((c :: cs) ++ rest) 0
    have hguard : pre.length < (pre ++ (c :: cs) ++ rest).length ∧
        isDigitC (charAtD (pre ++ (c :: cs) ++ rest) pre.length) = true := by
      rw [hc]
      exact ⟨by simp, hds c (by simp)⟩
    rw [digRunF, if_pos hguard, hc]
    have hre : pre.length + 1 = (pre ++ [c]).length := by simp
    have hs : pre ++ (c :: cs) ++ rest = (pre ++ [c]) ++ cs ++ rest := by simp
    rw [hre, hs, ih (pre ++ [c]) rest (acc * 10 + (c.toNat - 48)) f1
        (fun x hx => hds x (by simp [hx])) (by simp at hf ⊢; omega) hrest]
    simp only [Prod.mk.injEq]
    exact ⟨rfl, by simp; omega⟩

theorem strtol_digits (pre ds rest : List Char)
    (hds : ∀ c ∈ ds, isDigitC c = true) (hne : ds ≠ [])
    (hrest : rest = [] ∨ isDigitC (charAtD rest 0) = false) :
    strtol (pre ++ ds ++ rest) pre.length =
      ((digitsVal 0 ds : ℤ), pre.length + ds.length) := by
  obtain ⟨c, cs, rfl⟩ : ∃ c cs, ds = c :: cs := by
    cases ds with
    | nil => exact absurd rfl hne
    | cons c cs => exact ⟨c, cs, rfl⟩
  have hc : charAtD (pre ++ (c :: cs) ++ rest) pre.length = c := by
    simpa using charAtD_append_right pre ((c :: cs) ++ rest) 0
  have hcd := hds c (by simp)
  obtain ⟨hsp, hm, hp⟩ := isDigitC_ne_sp c hcd
  have hskip : skipSp (pre ++ (c :: cs) ++ rest) pre.length = pre.length := by
    unfold skipSp
    apply skipSpF_stop
    rintro ⟨-, he⟩
    rw [hc] at he
    exact hsp he
  have hdr : digRun (pre ++ (c :: cs) ++ rest) 0 pre.length =
      (digitsVal 0 (c :: cs), pre.length + (c :: cs).length) := by
    unfold digRun
    exact digRunF_split (c :: cs) pre rest 0 _ hds (by simp; omega) hrest
  unfold strtol
  dsimp only
  rw [hskip, hc, if_neg (show ¬(c = '-' ∨ c = '+') by simp [hm, hp]), if_neg hm, hdr]
  rw [if_neg (by simp)]
  simp

/-- Bounds of the longitude wrap. -/
theorem wrapLon_mem (x : ℚ) : -180 ≤ wrapLon x ∧ wrapLon x < 180 := by
  unfold wrapLon
  have h1 : ((⌊(x + 180) / 360⌋ : ℚ)) ≤ (x + 180) / 360 := Int.floor_le _
  have h2 : (x + 180) / 360 < (⌊(x + 180) / 360⌋ : ℚ) + 1 := Int.lt_floor_add_one _
  rw [le_div_iff₀ (by norm_num)] at h1
  rw [div_lt_iff₀ (by norm_num)] at h2
  constructor <;> nlinarith

set_option maxHeartbeats 1000000 in
/-- Claim C9: for every compact TNP coordinate string `HDDMMSS HDDDMMSS`
(hemisphere letter then a 6-digit run, a space, hemisphere letter then a
7-digit run), the parsed point decomposes each packed value by
degrees = value/10000, minutes = value%10000/100, seconds = value%100 —
reproducing the input digit pairs — with the axis negated exactly for S
(latitude) and W (longitude), and the longitude wrapped into [-180,180). -/
theorem C9_tnp_roundtrip (hl he d1 d2 d3 d4 d5 d6 e1 e2 e3 e4 e5 e6 e7 : Char)
    (hhl : hl = 'N' ∨ hl = 'S') (hhe : he = 'E' ∨ he = 'W')
    (hd : ∀ c ∈ [d1, d2, d3, d4, d5, d6, e1, e2, e3, e4, e5, e6, e7], isDigitC c = true) :
    ParseCoordsTNP (hl :: d1 :: d2 :: d3 :: d4 :: d5 :: d6 :: ' ' :: he ::
        e1 :: e2 :: e3 :: e4 :: e5 :: e6 :: e7 :: []) =
      (true,
       ⟨(if hl = 'S' then
           -(dmsQ ((digitsVal 0 [d1, d2, d3, d4, d5, d6] / 10000 : Nat) : ℤ)
               ((digitsVal 0 [d1, d2, d3, d4, d5, d6] % 10000 / 100 : Nat) : ℤ)
               ((digitsVal 0 [d1, d2, d3, d4, d5, d6] % 100 : Nat) : ℤ))
         else
           dmsQ ((digitsVal 0 [d1, d2, d3, d4, d5, d6] / 10000 : Nat) : ℤ)
             ((digitsVal 0 [d1, d2, d3, d4, d5, d6] % 10000 / 100 : Nat) : ℤ)
             ((digitsVal 0 [d1, d2, d3, d4, d5, d6] % 100 : Nat) : ℤ)),
        wrapLon
          (if he = 'W' then
            -(dmsQ ((digitsVal 0 [e1, e2, e3, e4, e5, e6, e7] / 10000 : Nat) : ℤ)
                ((digitsVal 0 [e1, e2, e3, e4, e5, e6, e7] % 10000 / 100 : Nat) : ℤ)
                ((digitsVal 0 [e1, e2, e3, e4, e5, e6, e7] % 100 : Nat) : ℤ))
          else
            dmsQ ((digitsVal 0 [e1, e2, e3, e4, e5, e6, e7] / 10000 : Nat) : ℤ)
              ((digitsVal 0 [e1, e2, e3, e4, e5, e6, e7] % 10000 / 100 : Nat) : ℤ)
              ((digitsVal 0 [e1, e2, e3, e4, e5, e6, e7] % 100 : Nat) : ℤ))⟩) ∧
    digitsVal 0 [d1, d2, d3, d4, d5, d6] / 10000 = 10 * dv d1 + dv d2 ∧
    digitsVal 0 [d1, d2, d3, d4, d5, d6] % 10000 / 100 = 10 * dv d3 + dv d4 ∧
    digitsVal 0 [d1, d2, d3, d4, d5, d6] % 100 = 10 * dv d5 + dv d6 ∧
    digitsVal 0 [e1, e2, e3, e4, e5, e6, e7] / 10000 = 100 * dv e1 + 10 * dv e2 + dv e3 ∧
    digitsVal 0 [e1, e2, e3, e4, e5, e6, e7] % 10000 / 100 = 10 * dv e4 + dv e5 ∧
    digitsVal 0 [e1, e2, e3, e4, e5, e6, e7] % 100 = 10 * dv e6 + dv e7 ∧
    -180 ≤ (ParseCoordsTNP (hl :: d1 :: d2 :: d3 :: d4 :: d5 :: d6 :: ' ' :: he ::
        e1 :: e2 :: e3 :: e4 :: e5 :: e6 :: e7 :: [])).2.Longitude ∧
    (ParseCoordsTNP (hl :: d1 :: d2 :: d3 :: d4 :: d5 :: d6 :: ' ' :: he ::
        e1 :: e2 :: e3 :: e4 :: e5 :: e6 :: e7 :: [])).2.Longitude < 180 := by
  have hds1 : ∀ c ∈ [d1, d2, d3, d4, d5, d6], isDigitC c = true := by
    intro c hc
    apply hd
    simp at hc ⊢
    tauto
  have hds2 : ∀ c ∈ [e1, e2, e3, e4, e5, e6, e7], isDigitC c = true := by
    intro c hc
    apply hd
    simp at hc ⊢
    tauto
  have e1lat : strtol (hl :: d1 :: d2 :: d3 :: d4 :: d5 :: d6 :: ' ' :: he ::
      e1 :: e2 :: e3 :: e4 :: e5 :: e6 :: e7 :: []) 1 =
      ((digitsVal 0 [d1, d2, d3, d4, d5, d6] : ℤ), 7) := by
    have h := strtol_digits [hl] [d1, d2, d3, d4, d5, d6]
      (' ' :: he :: e1 :: e2 :: e3 :: e4 :: e5 :: e6 :: e7 :: []) hds1 (by simp)
      (Or.inr rfl)
    simpa using h
  have e2lon : strtol (hl :: d1 :: d2 :: d3 :: d4 :: d5 :: d6 :: ' ' :: he ::
      e1 :: e2 :: e3 :: e4 :: e5 :: e6 :: e7 :: []) 9 =
      ((digitsVal 0 [e1, e2, e3, e4, e5, e6, e7] : ℤ), 16) := by
    have h := strtol_digits [hl, d1, d2, d3, d4, d5, d6, ' ', he]
      [e1, e2, e3, e4, e5, e6, e7] [] hds2 (by simp) (Or.inl rfl)
    simpa using h
  have hcl : (hl = 'S' ∨ hl = 's') = (hl = 'S') := by
    rcases hhl with rfl | rfl <;> simp
  have hce : (he = 'W' ∨ he = 'w') = (he = 'W') := by
    rcases hhe with rfl | rfl <;> simp
  have hmain : ParseCoordsTNP (hl :: d1 :: d2 :: d3 :: d4 :: d5 :: d6 :: ' ' :: he ::
      e1 :: e2 :: e3 :: e4 :: e5 :: e6 :: e7 :: []) =
      (true,
       ⟨(if hl = 'S' then
           -(dmsQ ((digitsVal 0 [d1, d2, d3, d4, d5, d6] / 10000 : Nat) : ℤ)
               ((digitsVal 0 [d1, d2, d3, d4, d5, d6] % 10000 / 100 : Nat) : ℤ)
               ((digitsVal 0 [d1, d2, d3, d4, d5, d6] % 100 : Nat) : ℤ))
         else
           dmsQ ((digitsVal 0 [d1, d2, d3, d4, d5, d6] / 10000 : Nat) : ℤ)
             ((digitsVal 0 [d1, d2, d3, d4, d5, d6] % 10000 / 100 : Nat) : ℤ)
             ((digitsVal 0 [d1, d2, d3, d4, d5, d6] % 100 : Nat) : ℤ)),
        wrapLon
          (if he = 'W' then
            -(dmsQ ((digitsVal 0 [e1, e2, e3, e4, e5, e6, e7] / 10000 : Nat) : ℤ)
                ((digitsVal 0 [e1, e2, e3, e4, e5, e6, e7] % 10000 / 100 : Nat) : ℤ)
                ((digitsVal 0 [e1, e2, e3, e4, e5, e6, e7] % 100 : Nat) : ℤ))
          else
            dmsQ ((digitsVal 0 [e1, e2, e3, e4, e5, e6, e7] / 10000 : Nat) : ℤ)
              ((digitsVal 0 [e1, e2, e3, e4, e5, e6, e7] % 10000 / 100 : Nat) : ℤ)
              ((digitsVal 0 [e1, e2, e3, e4, e5, e6, e7] % 100 : Nat) : ℤ))⟩) := by
    have tdivA : ∀ m : ℕ, ((m : ℤ)).tdiv 10000 = ((m / 10000 : ℕ) : ℤ) := fun m => rfl
    have tdivB : ∀ m : ℕ, ((m : ℤ)).tdiv 100 = ((m / 100 : ℕ) : ℤ) := fun m => rfl
    have nabs : ∀ m : ℕ, ((m : ℤ)).natAbs = m := fun m => rfl
    have subD1 : ((digitsVal 0 [d1, d2, d3, d4, d5, d6] : ℤ) -
        ((digitsVal 0 [d1, d2, d3, d4, d5, d6] / 10000 : ℕ) : ℤ) * 10000) =
        ((digitsVal 0 [d1, d2, d3, d4, d5, d6] % 10000 : ℕ) : ℤ) := by omega
    have subE1 : ((digitsVal 0 [e1, e2, e3, e4, e5, e6, e7] : ℤ) -
        ((digitsVal 0 [e1, e2, e3, e4, e5, e6, e7] / 10000 : ℕ) : ℤ) * 10000) =
        ((digitsVal 0 [e1, e2, e3, e4, e5, e6, e7] % 10000 : ℕ) : ℤ) := by omega
    have subD2 : ((digitsVal 0 [d1, d2, d3, d4, d5, d6] : ℤ) -
        ((digitsVal 0 [d1, d2, d3, d4, d5, d6] % 10000 / 100 : ℕ) : ℤ) * 100 -
        ((digitsVal 0 [d1, d2, d3, d4, d5, d6] / 10000 : ℕ) : ℤ) * 10000) =
        ((digitsVal 0 [d1, d2, d3, d4, d5, d6] % 100 : ℕ) : ℤ) := by omega
    have subE2 : ((digitsVal 0 [e1, e2, e3, e4, e5, e6, e7] : ℤ) -
        ((digitsVal 0 [e1, e2, e3, e4, e5, e6, e7] % 10000 / 100 : ℕ) : ℤ) * 100 -
        ((digitsVal 0 [e1, e2, e3, e4, e5, e6, e7] / 10000 : ℕ) : ℤ) * 10000) =
        ((digitsVal 0 [e1, e2, e3, e4, e5, e6, e7] % 100 : ℕ) : ℤ) := by omega
    unfold ParseCoordsTNP
    simp only [e1lat,
      show charAtD [hl, d1, d2, d3, d4, d5, d6, ' ', he, e1, e2, e3, e4, e5, e6, e7] 0 = hl from rfl,
      show charAtD [hl, d1, d2, d3, d4, d5, d6, ' ', he, e1, e2, e3, e4, e5, e6, e7] 7 = ' ' from rfl,
      eq_self_iff_true, if_true, Nat.reduceAdd,
      show charAtD [hl, d1, d2, d3, d4, d5, d6, ' ', he, e1, e2, e3, e4, e5, e6, e7] 8 = he from rfl,
      e2lon, hcl, hce, tdivA, nabs, subD1, subE1, tdivB, subD2, subE2,
      GeoPoint.normalize]
  have hb1 := isDigitC_bounds d1 (hd d1 (by simp))
  have hb2 := isDigitC_bounds d2 (hd d2 (by simp))
  have hb3 := isDigitC_bounds d3 (hd d3 (by simp))
  have hb4 := isDigitC_bounds d4 (hd d4 (by simp))
  have hb5 := isDigitC_bounds d5 (hd d5 (by simp))
  have hb6 := isDigitC_bounds d6 (hd d6 (by simp))
  have hc1 := isDigitC_bounds e1 (hd e1 (by simp))
  have hc2 := isDigitC_bounds e2 (hd e2 (by simp))
  have hc3 := isDigitC_bounds e3 (hd e3 (by simp))
  have hc4 := isDigitC_bounds e4 (hd e4 (by simp))
  have hc5 := isDigitC_bounds e5 (hd e5 (by simp))
  have hc6 := isDigitC_bounds e6 (hd e6 (by simp))
  have hc7 := isDigitC_bounds e7 (hd e7 (by simp))
  have hv1 : digitsVal 0 [d1, d2, d3, d4, d5, d6] =
      ((((dv d1 * 10 + dv d2) * 10 + dv d3) * 10 + dv d4) * 10 + dv d5) * 10 + dv d6 := by
    show (((((0 * 10 + dv d1) * 10 + dv d2) * 10 + dv d3) * 10 + dv d4) * 10 + dv d5) * 10 +
        dv d6 = _
    ring
  have hv2 : digitsVal 0 [e1, e2, e3, e4, e5, e6, e7] =
      (((((dv e1 * 10 + dv e2) * 10 + dv e3) * 10 + dv e4) * 10 + dv e5) * 10 + dv e6) * 10 +
        dv e7 := by
    show ((((((0 * 10 + dv e1) * 10 + dv e2) * 10 + dv e3) * 10 + dv e4) * 10 + dv e5) * 10 +
        dv e6) * 10 + dv e7 = _
    ring
  have hdv : ∀ c : Char, dv c = c.toNat - 48 := fun c => rfl
  refine ⟨hmain, ?_, ?_, ?_, ?_, ?_, ?_, ?_, ?_⟩
  · rw [hv1, hdv d1, hdv d2, hdv d3, hdv d4, hdv d5, hdv d6]
    omega
  · rw [hv1, hdv d1, hdv d2, hdv d3, hdv d4, hdv d5, hdv d6]
    omega
  · rw [hv1, hdv d1, hdv d2, hdv d3, hdv d4, hdv d5, hdv d6]
    omega
  · rw [hv2, hdv e1, hdv e2, hdv e3, hdv e4, hdv e5, hdv e6, hdv e7]
    omega
  · rw [hv2, hdv e1, hdv e2, hdv e3, hdv e4, hdv e5, hdv e6, hdv e7]
    omega
  · rw [hv2, hdv e1, hdv e2, hdv e3, hdv e4, hdv e5, hdv e6, hdv e7]
    omega
  · rw [hmain]
    exact (wrapLon_mem _).1
  · rw [hmain]
    exact (wrapLon_mem _).2


/-- Witness for `C9_tnp_roundtrip` at the concrete string "N542500 E0105000". -/
theorem C9_witness :
    digitsVal 0 ['5', '4', '2', '5', '0', '0'] / 10000 = 10 * dv '5' + dv '4' ∧
    -180 ≤ (ParseCoordsTNP ("N542500 E0105000".data)).2.Longitude ∧
    (ParseCoordsTNP ("N542500 E0105000".data)).2.Longitude < 180 :=
  have h := C9_tnp_roundtrip 'N' 'E' '5' '4' '2' '5' '0' '0' '0' '1' '0' '5' '0' '0' '0'
    (Or.inl rfl) (Or.inl rfl) (by decide)
  ⟨h.2.1, h.2.2.2.2.2.2.2.1, h.2.2.2.2.2.2.2.2⟩

/-! ## Claim C10 -/

/-- Claim C10: the `ReadAltitude` scan is claimed never to read beyond the
terminating NUL, but whenever a recognized token or digit run ends exactly
at the end of the string (or the string ends in a space) the for-loop
increment moves one past the NUL and the loop condition reads out of range;
the empty string alone stays in bounds. -/
theorem C10_oob_read :
    (ReadAltitude ("SFC".data)).oob = true ∧
    (ReadAltitude ("FL100".data)).oob = true ∧
    (ReadAltitude ("100".data)).oob = true ∧
    (ReadAltitude (" ".data)).oob = true ∧
    (ReadAltitude ([])).oob = false := by
  decide

end Xcs
